import Mathlib

/-!
Verification development for the Trading Decision & Guardrail Engine
(`app/agents/risk_policy.py`, `app/agents/execution_paper.py`,
`app/agents/strategy_brain.py`, `app/core/scheduler.py`).

Shallow embedding conventions:
* Python floats for prices, money and confidences are modelled as exact
  rationals (`ℚ`); the claims under study are about exact arithmetic at the
  business-logic level.
* Wall-clock instants (`datetime.now()`) are modelled as whole seconds
  (`Int`) and passed explicitly as a `now` parameter; `timedelta.seconds`
  equals `(elapsed) % 86400` (Python normalises negative deltas the same
  way as `Int.emod`).
* Python `dict`s keyed by strings are association lists with
  insert-or-replace update.
* Fallible code (Python exceptions: `TypeError` on `None` comparisons,
  market-data fetch failures) returns `Option`.
* Python decimal rendering (`f"{x:.2f}"`) is abstracted by `fmt2`, a
  two-decimal rendering with floor-rounding; no claim depends on the
  rounding mode of the final digit.
* `app/core/schemas.py` is not part of the sources; the two behavioural
  members it contributes (`DailyState.update_pnl`, `Position.update_pnl`)
  are modelled from the spec and marked as such below.  The structure
  fields themselves are reconstructed from their uses and from the storage
  schema in `app/core/storage.py`.
-/

/-- Python `abs` on a float. -/
def absQ (q : ℚ) : ℚ := if q < 0 then -q else q

/-- Python `abs` on an int. -/
def absI (i : Int) : Int := if i < 0 then -i else i

/-- Python two-argument `min` on floats. -/
def minQ (a b : ℚ) : ℚ := if a ≤ b then a else b

/-- Python two-argument `max` on floats. -/
def maxQ (a b : ℚ) : ℚ := if b ≤ a then a else b

/-- Python two-argument `max` on ints. -/
def maxI (a b : Int) : Int := if b ≤ a then a else b

/-- Truthiness of a Python `Optional[float]`: `None` and `0.0` are falsy. -/
def truthyQ : Option ℚ → Bool
  | none => false
  | some x => x ≠ 0

/-- Python `a or b` for `Optional[float]` values. -/
def orQ (a : Option ℚ) (b : ℚ) : ℚ :=
  match a with
  | none => b
  | some x => if x = 0 then b else x

/-- Python `int(q)` for a non-negative rational: truncation toward zero. -/
def pyInt (q : ℚ) : Int := Int.tdiv q.num q.den

/-- Floor of a rational as an integer. -/
def ratFloor (q : ℚ) : Int := Int.fdiv q.num q.den

/-- Decimal digits of a natural number. -/
def natStr (n : Nat) : String := toString n

/-- Decimal rendering of an integer. -/
def intStr (i : Int) : String :=
  if i < 0 then "-" ++ natStr i.natAbs else natStr i.natAbs

/-- Two-decimal rendering of a rational (Python `f"{x:.2f}"`; the final
digit is floor-rounded here rather than round-half-even, a rendering
detail no claim depends on). -/
def fmt2 (q : ℚ) : String :=
  let c : Int := ratFloor (q * 100)
  let sign := if c < 0 then "-" else ""
  let n := c.natAbs
  sign ++ natStr (n / 100) ++ "." ++ (if n % 100 < 10 then "0" else "") ++ natStr (n % 100)

/-- Signed two-decimal rendering (Python `f"{x:+.2f}"`). -/
def fmt2s (q : ℚ) : String := if 0 ≤ q then "+" ++ fmt2 q else fmt2 q

/-- Does `pat` occur at the start of `l`? -/
def charsHavePre : List Char → List Char → Bool
  | [], _ => true
  | _ :: _, [] => false
  | a :: as, b :: bs => a = b && charsHavePre as bs

/-- Does `pat` occur anywhere inside `l`? -/
def charsContain (pat : List Char) : List Char → Bool
  | [] => charsHavePre pat []
  | b :: bs => charsHavePre pat (b :: bs) || charsContain pat bs

/-- Substring test: does `s` mention `pat`? -/
def strContains (s pat : String) : Bool := charsContain pat.data s.data

/-! ## Enumerations (`app/core/schemas.py` declarations, values from use sites) -/

inductive StrategyType where
  | MOMENTUM_BREAKOUT
  | MEAN_REVERSION
  | VOLATILITY_EXPANSION
  deriving DecidableEq, Repr

/-- The Python enum `.value` string. -/
def StrategyType.val : StrategyType → String
  | .MOMENTUM_BREAKOUT => "momentum_breakout"
  | .MEAN_REVERSION => "mean_reversion"
  | .VOLATILITY_EXPANSION => "volatility_expansion"

inductive TradeSide where
  | BUY
  | SELL
  deriving DecidableEq, Repr

def TradeSide.val : TradeSide → String
  | .BUY => "buy"
  | .SELL => "sell"

inductive OrderType where
  | MARKET
  | LIMIT
  | STOP
  | STOP_LIMIT
  deriving DecidableEq, Repr

inductive OrderStatus where
  | PENDING
  | FILLED
  | REJECTED
  | CANCELLED
  deriving DecidableEq, Repr

inductive MarketRegime where
  | TRENDING_UP
  | TRENDING_DOWN
  | RANGING
  | VOLATILE
  | WHIPSAW
  deriving DecidableEq, Repr

def MarketRegime.val : MarketRegime → String
  | .TRENDING_UP => "trending_up"
  | .TRENDING_DOWN => "trending_down"
  | .RANGING => "ranging"
  | .VOLATILE => "volatile"
  | .WHIPSAW => "whipsaw"

/-! ## Guardrail flag maps (Python `dict` of named flags; values are booleans
except `max_risk_per_trade`, which the per-trade check stores as a number) -/

inductive FlagVal where
  | b (v : Bool)
  | q (v : ℚ)
  deriving DecidableEq, Repr

abbrev Flags := List (String × FlagVal)

/-- Python dict read `d.get(k)`. -/
def lookupFlag : Flags → String → Option FlagVal
  | [], _ => none
  | (k, v) :: fl, key => if k = key then some v else lookupFlag fl key

/-- Python dict write `d[k] = v` (replace in place, else append). -/
def setFlag : Flags → String → FlagVal → Flags
  | [], key, v => [(key, v)]
  | (k, w) :: fl, key, v => if k = key then (key, v) :: fl else (k, w) :: setFlag fl key v

/-! ## Configuration (`app/core/config.py`, fields the core uses; the agent
constructors copy these settings) -/

structure Settings where
  daily_capital : ℚ
  max_daily_loss : ℚ
  max_trades_per_day : Int
  per_trade_max_loss_pct : ℚ
  require_hitl_first_n_trades : Int
  hitl_confidence_threshold : ℚ
  strategy_switch_cooldown_minutes : Int
  strategy_switch_min_improvement : ℚ
  paper_slippage_percent : ℚ
  paper_brokerage_per_order : ℚ
  trading_symbols : List String
  deriving Repr

/-- The default configuration values of `app/core/config.py`. -/
def defaultSettings : Settings where
  daily_capital := 2000
  max_daily_loss := 300
  max_trades_per_day := 5
  per_trade_max_loss_pct := 50
  require_hitl_first_n_trades := 2
  hitl_confidence_threshold := 7/10
  strategy_switch_cooldown_minutes := 20
  strategy_switch_min_improvement := 3/20
  paper_slippage_percent := 1/20
  paper_brokerage_per_order := 20
  trading_symbols := ["HINDCOPPER", "MCX", "LAURUSLABS", "NAVINFLUOR", "RADICO"]

/-! ## Daily risk ledger (`DailyState`) -/

structure DailyState where
  date : String
  realized_pnl : ℚ := 0
  unrealized_pnl : ℚ := 0
  total_pnl : ℚ := 0
  loss_budget_remaining : ℚ
  max_daily_loss : ℚ
  max_trades : Int
  trades_count : Int := 0
  safe_mode : Bool := false
  active_strategy : Option StrategyType := none
  strategy_switched_at : Option Int := none
  hitl_approvals_pending : Int := 0
  deriving DecidableEq, Repr

/-- Modelled from the spec: `DailyState.update_pnl` is declared in
`app/core/schemas.py`, which is not among the sources.  Spec §3: "realized
PnL, unrealized PnL, total PnL (= realized+unrealized), remaining loss
budget (starts at a configured ceiling, strictly non-increasing except as
PnL recovers it upward through realized gains)"; §8: "remaining budget
strictly decreases only via realized losses".  We model: an optional
realized delta is accumulated into the realized PnL and moves the
remaining budget by the same amount; an optional unrealized value replaces
the unrealized PnL; the total is recomputed; no other field changes. -/
def DailyState.updatePnl (s : DailyState) (realized unrealized : Option ℚ) : DailyState :=
  let r := s.realized_pnl + realized.getD 0
  let b := s.loss_budget_remaining + realized.getD 0
  let u := unrealized.getD s.unrealized_pnl
  { s with realized_pnl := r, loss_budget_remaining := b, unrealized_pnl := u, total_pnl := r + u }

/-! ## Positions and the position book -/

structure Position where
  symbol : String
  quantity : Int
  avg_price : ℚ
  current_price : ℚ
  unrealized_pnl : ℚ := 0
  stop_loss_price : Option ℚ := none
  target_price : Option ℚ := none
  strategy : StrategyType
  last_updated : Option Int := none
  deriving DecidableEq, Repr

/-- Modelled from the spec: `Position.update_pnl` is declared in
`app/core/schemas.py`, which is not among the sources.  Spec §4.4:
"refresh its mark price, recompute unrealized PnL"; with a signed quantity
the direction-adjusted unrealized PnL is `(mark − avg) × quantity`. -/
def Position.updatePnl (p : Position) (current : ℚ) : Position :=
  { p with current_price := current,
           unrealized_pnl := (current - p.avg_price) * (p.quantity : ℚ) }

/-- The persisted position book (`storage`: at most one position per
symbol). -/
abbrev Book := List Position

def getPosition (book : Book) (sym : String) : Option Position :=
  book.find? (fun p => p.symbol = sym)

def savePosition (book : Book) (pos : Position) : Book :=
  if (book.find? (fun p => p.symbol = pos.symbol)).isSome then
    book.map (fun p => if p.symbol = pos.symbol then pos else p)
  else
    book ++ [pos]

def deletePosition (book : Book) (sym : String) : Book :=
  book.filter (fun p => p.symbol ≠ sym)

/-- Sum of the stored unrealized PnL over all open positions
(`RiskPolicyAgent._update_unrealized_pnl`). -/
def sumUnrealized (book : Book) : ℚ :=
  (book.map (fun p => p.unrealized_pnl)).sum

/-! ## Trade intents and approval decisions -/

structure TradeIntent where
  strategy_id : StrategyType
  symbol : String
  side : TradeSide
  entry_type : OrderType
  entry_price : Option ℚ := none
  quantity : Int
  stop_loss_price : Option ℚ := none
  target_price : Option ℚ := none
  confidence_score : ℚ
  rationale : String := ""
  expected_risk_rupees : ℚ
  invalidation_conditions : List String := []
  market_snapshot_id : Option Int := none
  deriving DecidableEq, Repr

structure RiskApproval where
  intent_id : Option Int := none
  approved : Bool
  adjusted_quantity : Option Int := none
  rejection_reason : Option String := none
  guardrail_flags : Flags := []
  safe_mode_active : Bool := false
  hitl_required : Bool := false
  hitl_reason : Option String := none
  remaining_loss_budget : ℚ := 0
  trades_today : Int := 0
  current_strategy : Option StrategyType := none
  deriving DecidableEq, Repr

/-! ## Guardrail Approval Engine (`app/agents/risk_policy.py`)

Each failing check performs the same three writes
(`approval.approved = False`, `approval.rejection_reason = ...`,
`approval.guardrail_flags[...] = True`), factored here as `rejectUpd`.
`storage.save_daily_state` calls are modelled by returning the updated
ledger. -/

def rejectUpd (a : RiskApproval) (reason flagKey : String) : RiskApproval :=
  { a with approved := false, rejection_reason := some reason,
           guardrail_flags := setFlag a.guardrail_flags flagKey (.b true) }

def safeModeMsg : String := "SAFE_MODE active - max daily loss reached"

def missingStopMsg : String := "Mandatory stop-loss missing"

def buyStopMsg : String := "Stop-loss for BUY must be below entry price"

def sellStopMsg : String := "Stop-loss for SELL must be above entry price"

def budgetExhaustedMsg (s : DailyState) : String :=
  "Daily loss budget exhausted (₹" ++ fmt2 s.loss_budget_remaining ++ " remaining)"

def riskExceedsBudgetMsg (intent : TradeIntent) (s : DailyState) : String :=
  "Trade risk (₹" ++ fmt2 intent.expected_risk_rupees ++ ") exceeds remaining budget (₹" ++
    fmt2 s.loss_budget_remaining ++ ")"

def perTradeMsg (intent : TradeIntent) (maxRisk : ℚ) : String :=
  "Per-trade risk (₹" ++ fmt2 intent.expected_risk_rupees ++ ") exceeds limit (₹" ++
    fmt2 maxRisk ++ ")"

def maxTradesMsg (s : DailyState) : String :=
  "Max trades per day (" ++ intStr s.max_trades ++ ") reached"

def cooldownMsg (cfg : Settings) (now t : Int) : String :=
  "Strategy switch cooldown active (" ++
    intStr (Int.fdiv ((cfg.strategy_switch_cooldown_minutes * 60 - (now - t)) % 86400) 60) ++
    " min remaining)"

def switchConfMsg (cfg : Settings) : String :=
  "Strategy switch requires confidence >= " ++ fmt2 (3/5 + cfg.strategy_switch_min_improvement)

def symbolMsg (intent : TradeIntent) : String :=
  "Symbol " ++ intent.symbol ++ " not in allowed trading list"

def switchHitlMsg (current new : StrategyType) : String :=
  "Strategy switch: " ++ current.val ++ " -> " ++ new.val

def firstNMsg (cfg : Settings) (s : DailyState) : String :=
  "First " ++ intStr cfg.require_hitl_first_n_trades ++ " trades require approval (trade #" ++
    intStr (s.trades_count + 1) ++ ")"

def lowConfMsg (cfg : Settings) (intent : TradeIntent) : String :=
  "Low confidence (" ++ fmt2 intent.confidence_score ++ " < " ++
    fmt2 cfg.hitl_confidence_threshold ++ ")"

def RiskPolicyAgent.check_safe_mode (s : DailyState) (a : RiskApproval) : Bool × RiskApproval :=
  if s.safe_mode then (false, rejectUpd a safeModeMsg "safe_mode") else (true, a)

/-- `_check_stop_loss`.  With a stop-loss present but `entry_price = None`,
the source compares a float against `None` (`TypeError`), modelled as
`none`. -/
def RiskPolicyAgent.check_stop_loss (intent : TradeIntent) (a : RiskApproval) :
    Option (Bool × RiskApproval) :=
  match intent.stop_loss_price with
  | none => some (false, rejectUpd a missingStopMsg "missing_stop_loss")
  | some sl =>
    match intent.entry_price with
    | none => none
    | some e =>
      match intent.side with
      | .BUY =>
        if e ≤ sl then some (false, rejectUpd a buyStopMsg "invalid_stop_loss")
        else some (true, a)
      | .SELL =>
        if sl ≤ e then some (false, rejectUpd a sellStopMsg "invalid_stop_loss")
        else some (true, a)

/-- `_check_daily_loss_budget`: on an exhausted budget it also trips
safe-mode (one-way) and saves the ledger. -/
def RiskPolicyAgent.check_daily_loss_budget (intent : TradeIntent) (s : DailyState)
    (a : RiskApproval) : Bool × RiskApproval × DailyState :=
  if s.loss_budget_remaining ≤ 0 then
    (false, rejectUpd a (budgetExhaustedMsg s) "loss_budget_exhausted",
      if s.safe_mode = false then { s with safe_mode := true } else s)
  else if s.loss_budget_remaining < intent.expected_risk_rupees then
    (false, rejectUpd a (riskExceedsBudgetMsg intent s) "risk_exceeds_budget", s)
  else (true, a, s)

/-- The per-trade risk cap of `_check_per_trade_risk`: a percentage of the
remaining budget, capped at the literal `100.0` of the source.  (The
source also computes a `remaining_trades` local, clamps it to at least 1,
and never uses it.) -/
def maxRiskPerTrade (cfg : Settings) (s : DailyState) : ℚ :=
  minQ (s.loss_budget_remaining * cfg.per_trade_max_loss_pct / 100) 100

def RiskPolicyAgent.check_per_trade_risk (cfg : Settings) (intent : TradeIntent)
    (s : DailyState) (a : RiskApproval) : Bool × RiskApproval :=
  let max_risk_per_trade := maxRiskPerTrade cfg s
  if max_risk_per_trade < intent.expected_risk_rupees then
    (false, rejectUpd a (perTradeMsg intent max_risk_per_trade) "per_trade_risk_exceeded")
  else
    (true, { a with guardrail_flags :=
               setFlag a.guardrail_flags "max_risk_per_trade" (.q max_risk_per_trade) })

def RiskPolicyAgent.check_max_trades (s : DailyState) (a : RiskApproval) : Bool × RiskApproval :=
  if s.max_trades ≤ s.trades_count then
    (false, rejectUpd a (maxTradesMsg s) "max_trades_reached")
  else (true, a)

/-- The confidence-bar half of `_check_strategy_switch` (runs after the
cooldown test); a passing switch is allowed but marked HITL-required. -/
def RiskPolicyAgent.switchConfidencePart (cfg : Settings) (intent : TradeIntent)
    (current : StrategyType) (a : RiskApproval) : Bool × RiskApproval :=
  if intent.confidence_score < 3/5 + cfg.strategy_switch_min_improvement then
    (false, rejectUpd a (switchConfMsg cfg) "strategy_switch_confidence_low")
  else
    (true, { a with hitl_required := true,
                    hitl_reason := some (switchHitlMsg current intent.strategy_id),
                    guardrail_flags := setFlag a.guardrail_flags "strategy_switch" (.b true) })

def RiskPolicyAgent.check_strategy_switch (cfg : Settings) (now : Int) (intent : TradeIntent)
    (s : DailyState) (a : RiskApproval) : Bool × RiskApproval :=
  match s.active_strategy with
  | none => (true, a)
  | some current_strategy =>
    if current_strategy = intent.strategy_id then (true, a)
    else
      match s.strategy_switched_at with
      | some t =>
        if now - t < cfg.strategy_switch_cooldown_minutes * 60 then
          (false, rejectUpd a (cooldownMsg cfg now t) "strategy_switch_cooldown")
        else RiskPolicyAgent.switchConfidencePart cfg intent current_strategy a
      | none => RiskPolicyAgent.switchConfidencePart cfg intent current_strategy a

def RiskPolicyAgent.check_symbol_validity (cfg : Settings) (intent : TradeIntent)
    (a : RiskApproval) : Bool × RiskApproval :=
  if intent.symbol ∈ cfg.trading_symbols then (true, a)
  else (false, rejectUpd a (symbolMsg intent) "invalid_symbol")

/-- `_check_liquidity` is a reserved hook: always passes. -/
def RiskPolicyAgent.check_liquidity (_intent : TradeIntent) (a : RiskApproval) :
    Bool × RiskApproval :=
  (true, a)

/-- `_check_hitl_requirements` (only reached when every guardrail passed).
`if approval.hitl_reason:` tests an `Optional[str]` that is never the
empty string here, so it is modelled as presence. -/
def RiskPolicyAgent.check_hitl_requirements (cfg : Settings) (intent : TradeIntent)
    (s : DailyState) (a : RiskApproval) : RiskApproval :=
  let a := if s.trades_count < cfg.require_hitl_first_n_trades then
      { a with hitl_required := true, hitl_reason := some (firstNMsg cfg s) }
    else a
  let a := if intent.confidence_score < cfg.hitl_confidence_threshold then
      { a with hitl_required := true,
               hitl_reason := some (match a.hitl_reason with
                 | some r => r ++ "; " ++ lowConfMsg cfg intent
                 | none => lowConfMsg cfg intent) }
    else a
  if a.hitl_required then
    { a with guardrail_flags := setFlag a.guardrail_flags "hitl_required" (.b true) }
  else a

/-- `_adjust_quantity` (only reached when every guardrail passed).  The
flag-map read uses the Python `dict.get` default; a boolean stored there
would be read as a number (never happens: the key is only ever written
with the numeric cap). -/
def RiskPolicyAgent.adjust_quantity (_cfg : Settings) (intent : TradeIntent)
    (s : DailyState) (a : RiskApproval) : Option RiskApproval :=
  let max_risk := match lookupFlag a.guardrail_flags "max_risk_per_trade" with
    | some (.q v) => v
    | some (.b v) => if v then 1 else 0
    | none => s.loss_budget_remaining
  match intent.stop_loss_price with
  | none => none
  | some sl =>
    let entry_price := orQ intent.entry_price 0
    let risk_per_share := if entry_price ≠ 0 then absQ (entry_price - sl) else absQ (sl * (1/100))
    if 0 < risk_per_share then
      let max_quantity := pyInt (max_risk / risk_per_share)
      if max_quantity < intent.quantity then
        some { a with adjusted_quantity := some (maxI 1 max_quantity),
                      guardrail_flags := setFlag a.guardrail_flags "quantity_adjusted" (.b true) }
      else some a
    else some a

/-- `RiskPolicyAgent.approve`: refresh unrealized PnL into the ledger, run
the eight checks unconditionally in order, then (only if all passed) the
HITL evaluation and the quantity adjustment.  A Python `TypeError`
(stop-loss compared against a missing entry price) is `none`. -/
def RiskPolicyAgent.approve (cfg : Settings) (now : Int) (book : Book)
    (intent : TradeIntent) (intent_id : Option Int) (s0 : DailyState) :
    Option (RiskApproval × DailyState) :=
  let s := s0.updatePnl none (some (sumUnrealized book))
  let approval : RiskApproval :=
    { intent_id := intent_id, approved := true, guardrail_flags := [],
      safe_mode_active := s.safe_mode, remaining_loss_budget := s.loss_budget_remaining,
      trades_today := s.trades_count, current_strategy := s.active_strategy }
  let (c1, a1) := RiskPolicyAgent.check_safe_mode s approval
  match RiskPolicyAgent.check_stop_loss intent a1 with
  | none => none
  | some (c2, a2) =>
    let (c3, a3, s3) := RiskPolicyAgent.check_daily_loss_budget intent s a2
    let (c4, a4) := RiskPolicyAgent.check_per_trade_risk cfg intent s3 a3
    let (c5, a5) := RiskPolicyAgent.check_max_trades s3 a4
    let (c6, a6) := RiskPolicyAgent.check_strategy_switch cfg now intent s3 a5
    let (c7, a7) := RiskPolicyAgent.check_symbol_validity cfg intent a6
    let (c8, a8) := RiskPolicyAgent.check_liquidity intent a7
    if c1 && c2 && c3 && c4 && c5 && c6 && c7 && c8 then
      let a9 := RiskPolicyAgent.check_hitl_requirements cfg intent s3 a8
      match RiskPolicyAgent.adjust_quantity cfg intent s3 a9 with
      | none => none
      | some a10 => some (a10, s3)
    else
      some ({ a8 with approved := false }, s3)

/-- `trigger_safe_mode` (manual operational control). -/
def RiskPolicyAgent.trigger_safe_mode (s : DailyState) : DailyState :=
  { s with safe_mode := true }

/-- `reset_daily_state`: a fresh ledger for a new trading day (budget back
at the ceiling, counters zero, safe-mode off). -/
def RiskPolicyAgent.reset_daily_state (cfg : Settings) (today : String) : DailyState :=
  { date := today, loss_budget_remaining := cfg.max_daily_loss,
    max_daily_loss := cfg.max_daily_loss, max_trades := cfg.max_trades_per_day }

/-! ## Paper Execution Simulator (`app/agents/execution_paper.py`) -/

/-- `calculate_slippage` from `app/core/utils.py`: one-sided adverse
slippage. -/
def calculate_slippage (price : ℚ) (side : TradeSide) (slippage_percent : ℚ) : ℚ :=
  let slippage_factor := slippage_percent / 100
  match side with
  | .BUY => price * (1 + slippage_factor)
  | .SELL => price * (1 - slippage_factor)

/-- A simulated order.  The generated `order_id` (uuid) and database link
`intent_id` are not modelled. -/
structure PaperOrder where
  symbol : String
  side : TradeSide
  quantity : Int
  order_type : OrderType
  limit_price : Option ℚ := none
  status : OrderStatus
  fill_price : Option ℚ := none
  fill_timestamp : Option Int := none
  slippage : Option ℚ := none
  brokerage : Option ℚ := none
  simulated_ltp : ℚ
  deriving DecidableEq, Repr

/-- `_simulate_fill`.  A LIMIT intent with no limit price compares the LTP
against `None` in the source (`TypeError`), modelled as `none`. -/
def ExecutionPaperAgent.simulate_fill (cfg : Settings) (now : Int) (intent : TradeIntent)
    (quantity : Int) (ltp : ℚ) : Option PaperOrder :=
  let marketOrder : PaperOrder :=
    let fp := calculate_slippage ltp intent.side cfg.paper_slippage_percent
    { symbol := intent.symbol, side := intent.side, quantity := quantity,
      order_type := intent.entry_type, limit_price := intent.entry_price,
      status := .FILLED, fill_price := some fp, fill_timestamp := some now,
      slippage := some (absQ (fp - ltp)), brokerage := some cfg.paper_brokerage_per_order,
      simulated_ltp := ltp }
  match intent.entry_type with
  | .MARKET => some marketOrder
  | .LIMIT =>
    match intent.entry_price with
    | none => none
    | some limit_price =>
      if intent.side = .BUY ∧ ltp ≤ limit_price then
        some { symbol := intent.symbol, side := intent.side, quantity := quantity,
               order_type := intent.entry_type, limit_price := intent.entry_price,
               status := .FILLED, fill_price := some (minQ ltp limit_price),
               fill_timestamp := some now, slippage := some 0,
               brokerage := some cfg.paper_brokerage_per_order, simulated_ltp := ltp }
      else if intent.side = .SELL ∧ limit_price ≤ ltp then
        some { symbol := intent.symbol, side := intent.side, quantity := quantity,
               order_type := intent.entry_type, limit_price := intent.entry_price,
               status := .FILLED, fill_price := some (maxQ ltp limit_price),
               fill_timestamp := some now, slippage := some 0,
               brokerage := some cfg.paper_brokerage_per_order, simulated_ltp := ltp }
      else
        some { symbol := intent.symbol, side := intent.side, quantity := quantity,
               order_type := intent.entry_type, limit_price := intent.entry_price,
               status := .PENDING, simulated_ltp := ltp }
  | .STOP => some marketOrder
  | .STOP_LIMIT => some marketOrder

/-- The `position` local computed by `_update_position`: volume-weighted
averaging of the fill into the existing position for the symbol (or a
new position).  Only called on filled orders, where `fill_price` is
set. -/
def ExecutionPaperAgent.updatedPosition (now : Int) (order : PaperOrder) (intent : TradeIntent)
    (book : Book) : Position :=
  let fp := order.fill_price.getD 0
  match getPosition book order.symbol with
    | none =>
      { symbol := order.symbol,
        quantity := if order.side = .BUY then order.quantity else -order.quantity,
        avg_price := fp, current_price := fp,
        stop_loss_price := intent.stop_loss_price,
        target_price := intent.target_price,
        strategy := intent.strategy_id }
    | some p =>
      match order.side with
      | .BUY =>
        let new_quantity := p.quantity + order.quantity
        let p := if 0 ≤ p.quantity then
            { p with avg_price :=
                if new_quantity ≠ 0 then
                  (p.avg_price * (p.quantity : ℚ) + fp * (order.quantity : ℚ)) / (new_quantity : ℚ)
                else fp }
          else p
        { p with quantity := new_quantity, last_updated := some now }
      | .SELL =>
        let new_quantity := p.quantity - order.quantity
        let p := if p.quantity ≤ 0 then
            { p with avg_price :=
                if new_quantity ≠ 0 then
                  (p.avg_price * (p.quantity.natAbs : ℚ) + fp * (order.quantity : ℚ)) /
                    (new_quantity.natAbs : ℚ)
                else fp }
          else p
        { p with quantity := new_quantity, last_updated := some now }

/-- `_update_position`: compute the updated position; a resulting net
quantity of zero deletes it from the book, otherwise it is saved. -/
def ExecutionPaperAgent.update_position (now : Int) (order : PaperOrder) (intent : TradeIntent)
    (book : Book) : Book :=
  let position := ExecutionPaperAgent.updatedPosition now order intent book
  if position.quantity = 0 then deletePosition book position.symbol
  else savePosition book position

/-- `_update_daily_state`, run after every fill. -/
def ExecutionPaperAgent.update_daily_state (now : Int) (intent : TradeIntent)
    (s : DailyState) : DailyState :=
  let s := { s with trades_count := s.trades_count + 1 }
  let s := { s with active_strategy := some intent.strategy_id }
  -- the source tests `daily_state.active_strategy != intent.strategy_id` only
  -- after the assignment above, i.e. against the freshly written value
  if s.active_strategy ≠ some intent.strategy_id then
    { s with strategy_switched_at := some now }
  else s

/-- The exit-action dict returned by `_exit_position` (the uuid order id
is not modelled). -/
structure ExitAction where
  symbol : String
  reason : String
  quantity : Int
  exit_price : ℚ
  realized_pnl : ℚ
  deriving DecidableEq, Repr

/-- `_exit_position`: simulate an opposing-side fill with slippage, fold
the realized PnL (minus two fee charges) into the ledger, delete the
position.  The exit `PaperOrder` is an append-only audit record and is
not modelled. -/
def ExecutionPaperAgent.exit_position (cfg : Settings) (position : Position) (exit_price : ℚ)
    (reason : String) (book : Book) (s : DailyState) : ExitAction × Book × DailyState :=
  let exit_side := if 0 < position.quantity then TradeSide.SELL else TradeSide.BUY
  let exit_quantity : Int := absI position.quantity
  let fill_price := calculate_slippage exit_price exit_side cfg.paper_slippage_percent
  let realized_pnl :=
    if 0 < position.quantity then
      (fill_price - position.avg_price) * (exit_quantity : ℚ) - cfg.paper_brokerage_per_order * 2
    else
      (position.avg_price - fill_price) * (exit_quantity : ℚ) - cfg.paper_brokerage_per_order * 2
  let s := s.updatePnl (some realized_pnl) none
  let book := deletePosition book position.symbol
  ({ symbol := position.symbol, reason := reason, quantity := exit_quantity,
     exit_price := fill_price, realized_pnl := realized_pnl }, book, s)

/-- One iteration of the `monitor_positions` loop for one open position:
refresh its PnL, then check stop-loss and target crossings for both
orientations.  `if position.stop_loss_price:` and
`if position.target_price:` are Python truthiness tests (a stop or
target of `0.0` is falsy). -/
def ExecutionPaperAgent.monitorStep (cfg : Settings) (ltp : String → Option ℚ)
    (acc : List ExitAction × Book × DailyState) (position : Position) :
    List ExitAction × Book × DailyState :=
  match ltp position.symbol with
  | none => acc
  | some current_price =>
    let (actions, book, s) := acc
    let position := position.updatePnl current_price
    let book := savePosition book position
    let (actions, book, s) :=
      if truthyQ position.stop_loss_price then
        if 0 < position.quantity ∧ current_price ≤ position.stop_loss_price.getD 0 then
          let (act, book, s) :=
            ExecutionPaperAgent.exit_position cfg position current_price "stop_loss" book s
          (actions ++ [act], book, s)
        else if position.quantity < 0 ∧ position.stop_loss_price.getD 0 ≤ current_price then
          let (act, book, s) :=
            ExecutionPaperAgent.exit_position cfg position current_price "stop_loss" book s
          (actions ++ [act], book, s)
        else (actions, book, s)
      else (actions, book, s)
    if truthyQ position.target_price then
      if 0 < position.quantity ∧ position.target_price.getD 0 ≤ current_price then
        let (act, book, s) :=
          ExecutionPaperAgent.exit_position cfg position current_price "target" book s
        (actions ++ [act], book, s)
      else if position.quantity < 0 ∧ current_price ≤ position.target_price.getD 0 then
        let (act, book, s) :=
          ExecutionPaperAgent.exit_position cfg position current_price "target" book s
        (actions ++ [act], book, s)
      else (actions, book, s)
    else (actions, book, s)

/-- `monitor_positions`: iterate over the list of open positions fetched
at entry (`storage.get_all_positions()`), threading the evolving book and
ledger.  A failure of the single up-front `get_ltp` call leaves
everything unchanged and is not modelled; per-symbol missing prices skip
that position, which is modelled. -/
def ExecutionPaperAgent.monitor_positions (cfg : Settings) (ltp : String → Option ℚ)
    (book : Book) (s : DailyState) : List ExitAction × Book × DailyState :=
  book.foldl (ExecutionPaperAgent.monitorStep cfg ltp) ([], book, s)

/-- `flatten_all_positions`: force-exit every open position regardless of
stop/target state.  `if current_price:` is a truthiness test (an LTP of
`0.0` skips the position). -/
def ExecutionPaperAgent.flatten_all_positions (cfg : Settings) (ltp : String → Option ℚ)
    (reason : String) (book : Book) (s : DailyState) : Book × DailyState :=
  book.foldl (fun (acc : Book × DailyState) position =>
    match ltp position.symbol with
    | none => acc
    | some current_price =>
      if current_price = 0 then acc
      else
        let (_, book, s) :=
          ExecutionPaperAgent.exit_position cfg position current_price reason acc.1 acc.2
        (book, s)) (book, s)

/-! ### De-duplication cache -/

/-- The in-memory `recent_order_hashes` dict: intent hash → time last
seen. -/
abbrev DedupCache := List (String × Int)

def lookupTime : DedupCache → String → Option Int
  | [], _ => none
  | (k, t) :: c, key => if k = key then some t else lookupTime c key

def setTime : DedupCache → String → Int → DedupCache
  | [], key, t => [(key, t)]
  | (k, u) :: c, key, t => if k = key then (key, t) :: c else (k, u) :: setTime c key t

/-- The intent hash `f"{symbol}_{side}_{strategy}_{entry_price}"`; the
Python float/None rendering of the entry price is abstracted by
`fmt2`/"None" (deterministic, and equal for identical intents). -/
def intentHash (intent : TradeIntent) : String :=
  intent.symbol ++ "_" ++ intent.side.val ++ "_" ++ intent.strategy_id.val ++ "_" ++
    (match intent.entry_price with | none => "None" | some e => fmt2 e)

/-- `_is_duplicate`: true within a 5-minute window; otherwise the intent
hash is recorded NOW (before any fill is attempted) and entries older
than 10 minutes are pruned.  `timedelta.seconds` is
`elapsed % 86400`. -/
def ExecutionPaperAgent.is_duplicate (now : Int) (intent : TradeIntent) (cache : DedupCache) :
    Bool × DedupCache :=
  let intent_hash := intentHash intent
  let record := fun (c : DedupCache) =>
    (setTime c intent_hash now).filter (fun p => (now - p.2) % 86400 < 600)
  match lookupTime cache intent_hash with
  | some last_time =>
    if (now - last_time) % 86400 < 300 then (true, cache)
    else (false, record cache)
  | none => (false, record cache)

/-- `ExecutionPaperAgent.execute`: refuse unapproved intents, then the
duplicate check (which records the hash), then the reference-price fetch
(`Option`: a fetch failure or missing symbol yields no order), then the
fill simulation; a fill updates the position book and the daily ledger.
Order persistence (append-only audit) is not modelled. -/
def ExecutionPaperAgent.execute (cfg : Settings) (now : Int) (ltp : String → Option ℚ)
    (intent : TradeIntent) (approval : RiskApproval)
    (cache : DedupCache) (book : Book) (s : DailyState) :
    Option PaperOrder × DedupCache × Book × DailyState :=
  if approval.approved = false then (none, cache, book, s)
  else
    let (dup, cache) := ExecutionPaperAgent.is_duplicate now intent cache
    if dup then (none, cache, book, s)
    else
      let quantity := match approval.adjusted_quantity with
        | some q => if q = 0 then intent.quantity else q
        | none => intent.quantity
      match ltp intent.symbol with
      | none => (none, cache, book, s)
      | some current_ltp =>
        match ExecutionPaperAgent.simulate_fill cfg now intent quantity current_ltp with
        | none => (none, cache, book, s)
        | some order =>
          if order.status = .FILLED then
            (some order, cache,
             ExecutionPaperAgent.update_position now order intent book,
             ExecutionPaperAgent.update_daily_state now intent s)
          else (some order, cache, book, s)

/-! ## Strategy Evaluator (`app/agents/strategy_brain.py`) -/

/-- Market snapshot fields read by the strategy evaluators (OHLC and the
trend label only feed logging and the LLM prompt and are omitted). -/
structure MarketSnapshot where
  symbol : String
  ltp : ℚ
  volume : ℚ
  vwap : ℚ
  regime : MarketRegime
  volatility_percentile : ℚ
  liquidity_score : ℚ
  opening_range_high : Option ℚ := none
  opening_range_low : Option ℚ := none
  avg_volume_20d : Option ℚ := none
  bb_upper : Option ℚ := none
  bb_lower : Option ℚ := none
  bb_middle : Option ℚ := none
  bb_width : Option ℚ := none
  atr : Option ℚ := none
  deriving DecidableEq, Repr

inductive MetricVal where
  | s (v : String)
  | q (v : ℚ)
  deriving DecidableEq, Repr

structure StrategyScore where
  strategy : StrategyType
  confidence : ℚ
  rationale : String
  key_metrics : List (String × MetricVal) := []
  deriving DecidableEq, Repr

/-- `:.0f` rendering (whole percentiles; floor-rounded here, a rendering
detail no claim depends on). -/
def fmt0 (q : ℚ) : String := intStr (ratFloor q)

/-- `_evaluate_momentum_breakout`.  Each `if X and Y:` over optional
fields is a Python truthiness test.  Within one run every metric key is
written at most once, so dict writes are appends. -/
def StrategyBrainAgent.evaluate_momentum_breakout (snapshot : MarketSnapshot) : StrategyScore :=
  let ltp := snapshot.ltp
  let vwap := snapshot.vwap
  let st : ℚ × List String × List (String × MetricVal) :=
    if truthyQ snapshot.opening_range_high ∧ truthyQ snapshot.opening_range_low then
      let or_high := snapshot.opening_range_high.getD 0
      let or_low := snapshot.opening_range_low.getD 0
      if or_high < ltp then
        (1/4, ["Price broke above opening range high (" ++ fmt2 or_high ++ ")"],
         [("breakout_type", .s "or_high")])
      else if ltp < or_low then
        (1/4, ["Price broke below opening range low (" ++ fmt2 or_low ++ ")"],
         [("breakout_type", .s "or_low")])
      else (0, [], [])
    else (0, [], [])
  let vwap_deviation := (ltp - vwap) / vwap * 100
  let st :=
    if 1/2 < absQ vwap_deviation then
      (st.1 + 1/5, st.2.1 ++ ["Price " ++ fmt2s vwap_deviation ++ "% from VWAP"],
       st.2.2 ++ [("vwap_deviation_pct", .q vwap_deviation)])
    else st
  let st :=
    if truthyQ snapshot.avg_volume_20d ∧ snapshot.avg_volume_20d.getD 0 * (6/5) < snapshot.volume then
      (st.1 + 1/5, st.2.1 ++ ["Above-average volume confirms breakout"],
       st.2.2 ++ [("volume_ratio", .q (snapshot.volume / snapshot.avg_volume_20d.getD 0))])
    else st
  let st :=
    if snapshot.regime = .TRENDING_UP ∨ snapshot.regime = .TRENDING_DOWN then
      (st.1 + 1/5, st.2.1 ++ ["Trending regime (" ++ snapshot.regime.val ++ ")"], st.2.2)
    else
      (st.1 - 1/10,
       st.2.1 ++ ["Non-trending regime (" ++ snapshot.regime.val ++ ") reduces confidence"],
       st.2.2)
  let st :=
    if 7/10 < snapshot.liquidity_score then
      (st.1 + 3/20, st.2.1 ++ ["High liquidity"], st.2.2)
    else st
  let confidence := minQ st.1 1
  let rationale :=
    if st.2.1 ≠ [] then "Momentum Breakout: " ++ String.intercalate "; " st.2.1
    else "No clear breakout setup"
  { strategy := .MOMENTUM_BREAKOUT, confidence := maxQ 0 confidence,
    rationale := rationale, key_metrics := st.2.2 }

/-- `_evaluate_mean_reversion`. -/
def StrategyBrainAgent.evaluate_mean_reversion (snapshot : MarketSnapshot) : StrategyScore :=
  let ltp := snapshot.ltp
  let vwap := snapshot.vwap
  let vwap_deviation := absQ (ltp - vwap) / vwap * 100
  let st : ℚ × List String × List (String × MetricVal) :=
    if 3/2 < vwap_deviation then
      (3/10, ["Price " ++ fmt2 vwap_deviation ++ "% from VWAP (mean reversion opportunity)"],
       [("vwap_deviation_pct", .q vwap_deviation)])
    else (0, [], [])
  let st :=
    if truthyQ snapshot.bb_upper ∧ truthyQ snapshot.bb_lower then
      let bb_upper := snapshot.bb_upper.getD 0
      let bb_lower := snapshot.bb_lower.getD 0
      let _bb_middle := orQ snapshot.bb_middle vwap   -- computed and unused in the source
      let upper_distance := absQ (ltp - bb_upper) / ltp * 100
      let lower_distance := absQ (ltp - bb_lower) / ltp * 100
      if upper_distance < 1/2 then
        (st.1 + 3/10, st.2.1 ++ ["Price near upper Bollinger Band (" ++ fmt2 bb_upper ++ ")"],
         st.2.2 ++ [("bb_touch", .s "upper")])
      else if lower_distance < 1/2 then
        (st.1 + 3/10, st.2.1 ++ ["Price near lower Bollinger Band (" ++ fmt2 bb_lower ++ ")"],
         st.2.2 ++ [("bb_touch", .s "lower")])
      else st
    else st
  let st :=
    if snapshot.regime = .RANGING ∨ snapshot.regime = .WHIPSAW then
      (st.1 + 1/4,
       st.2.1 ++ ["Ranging market (" ++ snapshot.regime.val ++ ") favors mean reversion"],
       st.2.2)
    else
      (st.1 - 3/20,
       st.2.1 ++ ["Trending market (" ++ snapshot.regime.val ++ ") reduces mean reversion edge"],
       st.2.2)
  let st :=
    if 30 < snapshot.volatility_percentile ∧ snapshot.volatility_percentile < 70 then
      (st.1 + 3/20, st.2.1 ++ ["Moderate volatility suitable for mean reversion"], st.2.2)
    else st
  let confidence := minQ st.1 1
  let rationale :=
    if st.2.1 ≠ [] then "Mean Reversion: " ++ String.intercalate "; " st.2.1
    else "No mean reversion setup"
  { strategy := .MEAN_REVERSION, confidence := maxQ 0 confidence,
    rationale := rationale, key_metrics := st.2.2 }

/-- `_evaluate_volatility_expansion`. -/
def StrategyBrainAgent.evaluate_volatility_expansion (snapshot : MarketSnapshot) : StrategyScore :=
  let ltp := snapshot.ltp
  let st : ℚ × List String × List (String × MetricVal) :=
    if truthyQ snapshot.bb_width ∧ truthyQ snapshot.atr then
      let bb_width_pct := snapshot.bb_width.getD 0 / ltp * 100
      if bb_width_pct < 2 then
        (3/10, ["Bollinger Bands compressed (" ++ fmt2 bb_width_pct ++ "%)"],
         [("bb_width_pct", .q bb_width_pct)])
      else (0, [], [])
    else (0, [], [])
  let st :=
    if snapshot.volatility_percentile < 30 then
      (st.1 + 1/4,
       st.2.1 ++ ["Low volatility (" ++ fmt0 snapshot.volatility_percentile ++
         "th percentile) - expansion likely"],
       st.2.2)
    else if 70 < snapshot.volatility_percentile then
      (st.1 + 3/20,
       st.2.1 ++ ["Volatility expanding (" ++ fmt0 snapshot.volatility_percentile ++
         "th percentile)"],
       st.2.2)
    else st
  let st :=
    if truthyQ snapshot.bb_upper ∧ truthyQ snapshot.bb_lower then
      let _bb_range := snapshot.bb_upper.getD 0 - snapshot.bb_lower.getD 0
      -- `_bb_range` is computed and unused in the source
      if snapshot.bb_upper.getD 0 < ltp ∨ ltp < snapshot.bb_lower.getD 0 then
        (st.1 + 1/4, st.2.1 ++ ["Price breaking out of Bollinger Bands"],
         st.2.2 ++ [("breakout_direction",
           .s (if snapshot.bb_upper.getD 0 < ltp then "up" else "down"))])
      else st
    else st
  let st :=
    if truthyQ snapshot.avg_volume_20d ∧ snapshot.avg_volume_20d.getD 0 * (3/2) < snapshot.volume then
      (st.1 + 1/5, st.2.1 ++ ["Volume surge confirms expansion"],
       st.2.2 ++ [("volume_ratio", .q (snapshot.volume / snapshot.avg_volume_20d.getD 0))])
    else st
  let confidence := minQ st.1 1
  let rationale :=
    if st.2.1 ≠ [] then "Volatility Expansion: " ++ String.intercalate "; " st.2.1
    else "No volatility expansion setup"
  { strategy := .VOLATILITY_EXPANSION, confidence := maxQ 0 confidence,
    rationale := rationale, key_metrics := st.2.2 }

/-- Python `max(scores, key=lambda s: s.confidence)`: keep the current
best, replace only on a strictly greater key — so on exact ties the
earlier element wins. -/
def pyMaxBy (s0 : StrategyScore) (rest : List StrategyScore) : StrategyScore :=
  rest.foldl (fun best x => if best.confidence < x.confidence then x else best) s0

/-- The `best_score` local of `evaluate`: the Python `max` over the three
scores in registration order. -/
def StrategyBrainAgent.bestScore (snapshot : MarketSnapshot) : StrategyScore :=
  pyMaxBy (StrategyBrainAgent.evaluate_momentum_breakout snapshot)
    [StrategyBrainAgent.evaluate_mean_reversion snapshot,
     StrategyBrainAgent.evaluate_volatility_expansion snapshot]

def StrategyBrainAgent.build_invalidation_conditions (snapshot : MarketSnapshot)
    (strategy : StrategyType) : List String :=
  match strategy with
  | .MOMENTUM_BREAKOUT =>
    ["Price falls back below VWAP (₹" ++ fmt2 snapshot.vwap ++ ")",
     "Volume drops significantly",
     "Regime changes to ranging/whipsaw"]
  | .MEAN_REVERSION =>
    ["Price continues trending away from VWAP",
     "Regime changes to strong trending",
     "Volume surge indicates breakout, not reversion"]
  | .VOLATILITY_EXPANSION =>
    ["Volatility contracts again (false breakout)",
     "Price returns inside Bollinger Bands",
     "Volume dries up"]

/-- `_generate_trade_intent`.  The external rationale collaborator
(`_generate_llm_rationale`) must not fail the evaluation; its failure
path falls back to the rule-based rationale, which is what is
modelled. -/
def StrategyBrainAgent.generate_trade_intent (snapshot : MarketSnapshot)
    (score : StrategyScore) : TradeIntent :=
  let ltp := snapshot.ltp
  let sdt : TradeSide × Option ℚ × ℚ × ℚ :=
    match score.strategy with
    | .MOMENTUM_BREAKOUT =>
      if snapshot.vwap < ltp then
        (.BUY, none, snapshot.vwap * (995/1000), ltp * (1015/1000))
      else
        (.SELL, none, snapshot.vwap * (1005/1000), ltp * (985/1000))
    | .MEAN_REVERSION =>
      if snapshot.vwap < ltp then
        (.SELL, some ltp, ltp * (101/100), snapshot.vwap)
      else
        (.BUY, some ltp, ltp * (99/100), snapshot.vwap)
    | .VOLATILITY_EXPANSION =>
      if truthyQ snapshot.bb_upper ∧ snapshot.bb_upper.getD 0 < ltp then
        (.BUY, none, orQ snapshot.bb_middle (ltp * (99/100)), ltp * (102/100))
      else if truthyQ snapshot.bb_lower ∧ ltp < snapshot.bb_lower.getD 0 then
        (.SELL, none, orQ snapshot.bb_middle (ltp * (101/100)), ltp * (98/100))
      else
        (.BUY, none, ltp * (99/100), ltp * (102/100))
  let (side, entry_price, stop_loss_price, target_price) := sdt
  let quantity : Int := 1
  let expected_risk := absQ (ltp - stop_loss_price) * (quantity : ℚ)
  { strategy_id := score.strategy, symbol := snapshot.symbol, side := side,
    entry_type := if entry_price = none then OrderType.MARKET else OrderType.LIMIT,
    entry_price := entry_price, quantity := quantity,
    stop_loss_price := some stop_loss_price, target_price := some target_price,
    confidence_score := score.confidence, rationale := score.rationale,
    expected_risk_rupees := expected_risk,
    invalidation_conditions :=
      StrategyBrainAgent.build_invalidation_conditions snapshot score.strategy }

/-- `self.min_confidence_threshold` (set in `__init__`). -/
def StrategyBrainAgent.min_confidence_threshold : ℚ := 3/5

/-- `StrategyBrainAgent.evaluate`: score the three registered strategies
on the same snapshot (dict iteration = registration order: momentum
breakout, mean reversion, volatility expansion), select the best with
Python `max`, and emit no trade when the best confidence is below the
threshold. -/
def StrategyBrainAgent.evaluate (snapshot : MarketSnapshot) : Option TradeIntent :=
  let scores := [StrategyBrainAgent.evaluate_momentum_breakout snapshot,
                 StrategyBrainAgent.evaluate_mean_reversion snapshot,
                 StrategyBrainAgent.evaluate_volatility_expansion snapshot]
  match scores with
  | [] => none
  | s0 :: rest =>
    let best_score := pyMaxBy s0 rest
    if best_score.confidence < StrategyBrainAgent.min_confidence_threshold then none
    else some (StrategyBrainAgent.generate_trade_intent snapshot best_score)

/-! ## Cycle Scheduler (`app/core/scheduler.py`) -/

/-- One symbol of the per-instrument pipeline in `_run_trading_cycle`
(steps 2-5).  Per-symbol exceptions (snapshot build failure, the approve
`TypeError`) are caught and skip the symbol; on the approve `TypeError`
the unrealized-PnL fold it saved first is kept.  The threaded state is
(dedup cache, book, persisted ledger, scheduler-local `daily_state`
object read at cycle start — the source mutates and re-saves that stale
object for HITL bookkeeping, clobbering intervening ledger writes). -/
def TradingScheduler.processSymbol (cfg : Settings) (now : Int)
    (snapshots : String → Option MarketSnapshot) (ltp : String → Option ℚ)
    (st : DedupCache × Book × DailyState × DailyState) (symbol : String) :
    DedupCache × Book × DailyState × DailyState :=
  let (cache, book, stored, localState) := st
  match snapshots symbol with
  | none => st
  | some snapshot =>
    match StrategyBrainAgent.evaluate snapshot with
    | none => st
    | some intent =>
      match RiskPolicyAgent.approve cfg now book intent none stored with
      | none => (cache, book, stored.updatePnl none (some (sumUnrealized book)), localState)
      | some (approval, stored) =>
        if approval.approved = false then (cache, book, stored, localState)
        else if approval.hitl_required then
          let localState :=
            { localState with hitl_approvals_pending := localState.hitl_approvals_pending + 1 }
          (cache, book, localState, localState)
        else
          let (_, cache, book, stored) :=
            ExecutionPaperAgent.execute cfg now ltp intent approval cache book stored
          (cache, book, stored, localState)

/-- `_run_trading_cycle`.  `inTradingHours` and `exitOnly` are the
`is_trading_hours()` / `is_exit_only_time()` clock tests, passed in as
inputs.  Outside trading hours the tick returns before anything else
runs.  The safe-mode test reads the `daily_state` object fetched at
cycle start. -/
def TradingScheduler.run_trading_cycle (cfg : Settings) (now : Int)
    (inTradingHours exitOnly : Bool)
    (snapshots : String → Option MarketSnapshot) (ltp : String → Option ℚ)
    (cache : DedupCache) (book : Book) (stored : DailyState) :
    DedupCache × Book × DailyState :=
  if inTradingHours = false then (cache, book, stored)
  else
    let daily_state := stored
    let (_, book, stored) := ExecutionPaperAgent.monitor_positions cfg ltp book stored
    if daily_state.safe_mode then
      let (book, stored) :=
        ExecutionPaperAgent.flatten_all_positions cfg ltp "safe_mode" book stored
      (cache, book, stored)
    else if exitOnly then (cache, book, stored)
    else
      let r := cfg.trading_symbols.foldl
        (TradingScheduler.processSymbol cfg now snapshots ltp) (cache, book, stored, daily_state)
      (r.1, r.2.1, r.2.2.1)

/-! ## Check verdicts

For each guardrail of `approve`, the verdict triple (does it fail on
these inputs; the rejection reason it writes; the flag key it sets),
read off the corresponding `_check_*` method.  These drive the
characterisation of `approve` proved below. -/
/-! ## Check verdicts: for each guardrail, whether it fails on the given
inputs and, if so, the reason string and flag key it writes. -/
def stopVerdict (intent : TradeIntent) : Option (Bool × String × String) :=
  match intent.stop_loss_price with
  | none => some (true, missingStopMsg, "missing_stop_loss")
  | some sl =>
    match intent.entry_price with
    | none => none
    | some e =>
      match intent.side with
      | .BUY => if e ≤ sl then some (true, buyStopMsg, "invalid_stop_loss") else some (false, "", "")
      | .SELL => if sl ≤ e then some (true, sellStopMsg, "invalid_stop_loss") else some (false, "", "")

def budgetVerdict (intent : TradeIntent) (s : DailyState) : Bool × String × String :=
  if s.loss_budget_remaining ≤ 0 then (true, budgetExhaustedMsg s, "loss_budget_exhausted")
  else if s.loss_budget_remaining < intent.expected_risk_rupees then
    (true, riskExceedsBudgetMsg intent s, "risk_exceeds_budget")
  else (false, "", "")

/-- The ledger update performed by the daily-loss-budget check: trip
safe-mode (one way) when the budget is exhausted. -/
def budgetStateUpd (s : DailyState) : DailyState :=
  if s.loss_budget_remaining ≤ 0 ∧ s.safe_mode = false then { s with safe_mode := true } else s

def perTradeVerdict (cfg : Settings) (intent : TradeIntent) (s : DailyState) :
    Bool × String × String :=
  if maxRiskPerTrade cfg s < intent.expected_risk_rupees then
    (true, perTradeMsg intent (maxRiskPerTrade cfg s), "per_trade_risk_exceeded")
  else (false, "", "")

def maxTradesVerdict (s : DailyState) : Bool × String × String :=
  if s.max_trades ≤ s.trades_count then (true, maxTradesMsg s, "max_trades_reached")
  else (false, "", "")

def switchConfVerdict (cfg : Settings) (intent : TradeIntent) : Bool × String × String :=
  if intent.confidence_score < 3/5 + cfg.strategy_switch_min_improvement then
    (true, switchConfMsg cfg, "strategy_switch_confidence_low")
  else (false, "", "")

def switchVerdict (cfg : Settings) (now : Int) (intent : TradeIntent) (s : DailyState) :
    Bool × String × String :=
  match s.active_strategy with
  | none => (false, "", "")
  | some current_strategy =>
    if current_strategy = intent.strategy_id then (false, "", "")
    else
      match s.strategy_switched_at with
      | some t =>
        if now - t < cfg.strategy_switch_cooldown_minutes * 60 then
          (true, cooldownMsg cfg now t, "strategy_switch_cooldown")
        else switchConfVerdict cfg intent
      | none => switchConfVerdict cfg intent

/-- The HITL marking a passing strategy-switch check performs. -/
def switchPassUpd (intent : TradeIntent) (s : DailyState) (a : RiskApproval) : RiskApproval :=
  match s.active_strategy with
  | none => a
  | some current_strategy =>
    if current_strategy = intent.strategy_id then a
    else { a with hitl_required := true,
                  hitl_reason := some (switchHitlMsg current_strategy intent.strategy_id),
                  guardrail_flags := setFlag a.guardrail_flags "strategy_switch" (.b true) }

def symbolVerdict (cfg : Settings) (intent : TradeIntent) : Bool × String × String :=
  if intent.symbol ∈ cfg.trading_symbols then (false, "", "")
  else (true, symbolMsg intent, "invalid_symbol")

/-- The eight guardrails of `approve`, in evaluation order, as (fails?,
rejection reason, flag key).  A stop-loss check that would raise
(`stopVerdict = none`) contributes a vacuous entry; the theorems about
`approve` assume a decision was returned, which rules that case out. -/
def failList (cfg : Settings) (now : Int) (intent : TradeIntent) (s : DailyState) :
    List (Bool × String × String) :=
  [(s.safe_mode, safeModeMsg, "safe_mode"),
   (stopVerdict intent).getD (false, "", ""),
   budgetVerdict intent s,
   perTradeVerdict cfg intent s,
   maxTradesVerdict s,
   switchVerdict cfg now intent s,
   symbolVerdict cfg intent,
   (false, "", "")]

/-- The "each failing check overwrites the rejection reason" fold: the
reason carried after running a list of verdicts in order. -/
def reasonChain (L : List (Bool × String × String)) : Option String :=
  L.foldl (fun acc v => if v.1 then some v.2.1 else acc) none

/-- The approval-side effect of a list of checks: a failing check writes
reason and flag (`rejectUpd`), a passing one applies its pass-effect. -/
def applyChecks (a : RiskApproval) :
    List ((Bool × String × String) × (RiskApproval → RiskApproval)) → RiskApproval
  | [] => a
  | vp :: rest =>
    applyChecks (if vp.1.1 = true then rejectUpd a vp.1.2.1 vp.1.2.2 else vp.2 a) rest

/-- The eight checks of `approve` as (verdict, pass-effect) pairs, in
evaluation order (the always-passing liquidity hook has no effect and is
dropped from the pass-effect view). -/
def checkList (cfg : Settings) (now : Int) (intent : TradeIntent) (s1 : DailyState)
    (v2 : Bool × String × String) :
    List ((Bool × String × String) × (RiskApproval → RiskApproval)) :=
  [((s1.safe_mode, safeModeMsg, "safe_mode"), id),
   (v2, id),
   (budgetVerdict intent s1, id),
   (perTradeVerdict cfg intent s1, fun x =>
     { x with guardrail_flags :=
         setFlag x.guardrail_flags "max_risk_per_trade" (.q (maxRiskPerTrade cfg s1)) }),
   (maxTradesVerdict s1, id),
   (switchVerdict cfg now intent s1, switchPassUpd intent s1),
   (symbolVerdict cfg intent, id)]

/-- The initial (optimistic) approval built at the top of `approve`. -/
def initApproval (intent_id : Option Int) (s1 : DailyState) : RiskApproval :=
  { intent_id := intent_id, approved := true, adjusted_quantity := none,
    rejection_reason := none, guardrail_flags := [], safe_mode_active := s1.safe_mode,
    hitl_required := false, hitl_reason := none,
    remaining_loss_budget := s1.loss_budget_remaining,
    trades_today := s1.trades_count, current_strategy := s1.active_strategy }

/-! ## Projections of a returned decision, and concrete inputs used in
the theorems below -/

/-- The approved flag of an `approve` result (`false` when the call
raised and no decision was returned). -/
def approvedOf : Option (RiskApproval × DailyState) → Bool
  | some (a, _) => a.approved
  | none => false

/-- The rejection reason of an `approve` result. -/
def reasonOf : Option (RiskApproval × DailyState) → Option String
  | some (a, _) => a.rejection_reason
  | none => none

/-- The safe-mode flag of the ledger persisted by an `approve` call. -/
def resultSafeMode : Option (RiskApproval × DailyState) → Option Bool
  | some (_, s) => some s.safe_mode
  | none => none

/-- A named guardrail flag of an `approve` result. -/
def resultFlag (k : String) : Option (RiskApproval × DailyState) → Option FlagVal
  | some (a, _) => lookupFlag a.guardrail_flags k
  | none => none

/-- A plainly valid BUY intent on an allowed symbol. -/
def w1intent : TradeIntent :=
  { strategy_id := .MOMENTUM_BREAKOUT, symbol := "MCX", side := .BUY,
    entry_type := .MARKET, entry_price := some 100, quantity := 1,
    stop_loss_price := some 99, confidence_score := 4/5, expected_risk_rupees := 10 }

/-- A fresh ledger with the full default budget. -/
def w1state : DailyState :=
  { date := "2026-01-05", loss_budget_remaining := 300, max_daily_loss := 300,
    max_trades := 5 }

/-- The valid-stop intent of the repository's own budget test
(`tests/test_risk_policy.py::test_daily_loss_budget`), on an allowed
symbol. -/
def c3intent : TradeIntent :=
  { strategy_id := .MOMENTUM_BREAKOUT, symbol := "MCX", side := .BUY,
    entry_type := .MARKET, entry_price := some 2450, quantity := 10,
    stop_loss_price := some 2400, confidence_score := 3/4, expected_risk_rupees := 50 }

/-- A ledger whose remaining loss budget is exhausted, safe mode off. -/
def c3state : DailyState :=
  { date := "2026-01-05", loss_budget_remaining := 0, max_daily_loss := 200,
    max_trades := 5 }

/-- A fill intent whose strategy differs from the ledger's active one. -/
def c4intent : TradeIntent :=
  { strategy_id := .MEAN_REVERSION, symbol := "MCX", side := .BUY,
    entry_type := .MARKET, entry_price := some 100, quantity := 1,
    stop_loss_price := some 99, confidence_score := 4/5, expected_risk_rupees := 1 }

/-- A ledger whose active strategy is momentum-breakout, switch
timestamp unset. -/
def c4state : DailyState :=
  { date := "2026-01-05", loss_budget_remaining := 300, max_daily_loss := 300,
    max_trades := 5, active_strategy := some .MOMENTUM_BREAKOUT }

/-- The intent behind the two C5 witness fills. -/
def c5intent : TradeIntent :=
  { strategy_id := .MOMENTUM_BREAKOUT, symbol := "MCX", side := .BUY,
    entry_type := .MARKET, entry_price := some 100, quantity := 5,
    stop_loss_price := some 95, confidence_score := 4/5, expected_risk_rupees := 25 }

/-- First witness fill: BUY 5 at 100. -/
def c5o1 : PaperOrder :=
  { symbol := "MCX", side := .BUY, quantity := 5, order_type := .MARKET,
    status := .FILLED, fill_price := some 100, simulated_ltp := 100 }

/-- Second witness fill: BUY 5 at 110. -/
def c5o2 : PaperOrder :=
  { symbol := "MCX", side := .BUY, quantity := 5, order_type := .MARKET,
    status := .FILLED, fill_price := some 110, simulated_ltp := 110 }

/-- The long position of the stop-loss monitoring scenario:
average 100, quantity 10, stop 98. -/
def c6pos : Position :=
  { symbol := "MCX", quantity := 10, avg_price := 100, current_price := 100,
    stop_loss_price := some 98, target_price := none, strategy := .MOMENTUM_BREAKOUT }

/-- A ledger for the monitoring scenario. -/
def c6state : DailyState :=
  { date := "2026-01-05", loss_budget_remaining := 300, max_daily_loss := 300,
    max_trades := 5 }

/-- Reference prices: the monitored symbol trades at 97. -/
def c6ltp : String → Option ℚ := fun sym => if sym = "MCX" then some 97 else none

/-- A bland snapshot (mean reversion scores 0.4, the others 0). -/
def c7snap : MarketSnapshot :=
  { symbol := "MCX", ltp := 100, volume := 0, vwap := 100, regime := .RANGING,
    volatility_percentile := 50, liquidity_score := 0 }

/-- An approved decision with no quantity adjustment. -/
def c10approval : RiskApproval := { approved := true }

/-- A reference-price feed that always fails. -/
def c10ltpFail : String → Option ℚ := fun _ => none

/-- A reference-price feed that always succeeds. -/
def c10ltpOk : String → Option ℚ := fun _ => some 100

/-! ## Theorems -/

set_option maxHeartbeats 1600000

theorem lookupFlag_setFlag_self (fl : Flags) (k : String) (v : FlagVal) :
    lookupFlag (setFlag fl k v) k = some v := by
  induction fl with
  | nil => simp [setFlag, lookupFlag]
  | cons hd tl ih =>
    obtain ⟨k0, v0⟩ := hd
    by_cases h : k0 = k <;> simp [setFlag, lookupFlag, h, ih]

theorem lookupFlag_setFlag_ne (fl : Flags) {k key : String} (v : FlagVal) (h : k ≠ key) :
    lookupFlag (setFlag fl k v) key = lookupFlag fl key := by
  induction fl with
  | nil => simp [setFlag, lookupFlag, h]
  | cons hd tl ih =>
    obtain ⟨k0, v0⟩ := hd
    by_cases h0 : k0 = k
    · subst h0
      simp [setFlag, lookupFlag, h]
    · simp [setFlag, lookupFlag, h0, ih]

theorem check_safe_mode_char (s : DailyState) (a : RiskApproval) :
    RiskPolicyAgent.check_safe_mode s a =
      (!s.safe_mode, if s.safe_mode then rejectUpd a safeModeMsg "safe_mode" else a) := by
  unfold RiskPolicyAgent.check_safe_mode
  cases s.safe_mode <;> rfl

theorem check_stop_loss_char (intent : TradeIntent) (a : RiskApproval) :
    RiskPolicyAgent.check_stop_loss intent a =
      (stopVerdict intent).map
        (fun v => (!v.1, if v.1 then rejectUpd a v.2.1 v.2.2 else a)) := by
  unfold RiskPolicyAgent.check_stop_loss stopVerdict
  rcases intent.stop_loss_price with _ | sl
  · rfl
  · rcases intent.entry_price with _ | e
    · rfl
    · rcases hside : intent.side with _ | _
      · by_cases h : e ≤ sl <;> simp [h]
      · by_cases h : sl ≤ e <;> simp [h]

theorem check_daily_loss_budget_char (intent : TradeIntent) (s : DailyState)
    (a : RiskApproval) :
    RiskPolicyAgent.check_daily_loss_budget intent s a =
      (!(budgetVerdict intent s).1,
       (if (budgetVerdict intent s).1 then
          rejectUpd a (budgetVerdict intent s).2.1 (budgetVerdict intent s).2.2
        else a),
       budgetStateUpd s) := by
  unfold RiskPolicyAgent.check_daily_loss_budget budgetVerdict budgetStateUpd
  by_cases h1 : s.loss_budget_remaining ≤ 0
  · cases h2 : s.safe_mode <;> simp [h1, h2]
  · by_cases h3 : s.loss_budget_remaining < intent.expected_risk_rupees <;> simp [h1, h3]

theorem check_per_trade_risk_char (cfg : Settings) (intent : TradeIntent) (s : DailyState)
    (a : RiskApproval) :
    RiskPolicyAgent.check_per_trade_risk cfg intent s a =
      (!(perTradeVerdict cfg intent s).1,
       if (perTradeVerdict cfg intent s).1 then
         rejectUpd a (perTradeVerdict cfg intent s).2.1 (perTradeVerdict cfg intent s).2.2
       else { a with guardrail_flags :=
                setFlag a.guardrail_flags "max_risk_per_trade" (.q (maxRiskPerTrade cfg s)) }) := by
  unfold RiskPolicyAgent.check_per_trade_risk perTradeVerdict
  by_cases h : maxRiskPerTrade cfg s < intent.expected_risk_rupees <;> simp [h]

theorem check_max_trades_char (s : DailyState) (a : RiskApproval) :
    RiskPolicyAgent.check_max_trades s a =
      (!(maxTradesVerdict s).1,
       if (maxTradesVerdict s).1 then
         rejectUpd a (maxTradesVerdict s).2.1 (maxTradesVerdict s).2.2
       else a) := by
  unfold RiskPolicyAgent.check_max_trades maxTradesVerdict
  by_cases h : s.max_trades ≤ s.trades_count <;> simp [h]

theorem check_strategy_switch_char (cfg : Settings) (now : Int) (intent : TradeIntent)
    (s : DailyState) (a : RiskApproval) :
    RiskPolicyAgent.check_strategy_switch cfg now intent s a =
      (!(switchVerdict cfg now intent s).1,
       if (switchVerdict cfg now intent s).1 then
         rejectUpd a (switchVerdict cfg now intent s).2.1 (switchVerdict cfg now intent s).2.2
       else switchPassUpd intent s a) := by
  unfold RiskPolicyAgent.check_strategy_switch switchVerdict switchPassUpd
  rcases s.active_strategy with _ | cur
  · rfl
  · by_cases hc : cur = intent.strategy_id
    · simp [hc]
    · rcases s.strategy_switched_at with _ | t
      · unfold RiskPolicyAgent.switchConfidencePart switchConfVerdict
        by_cases hconf : intent.confidence_score < 3/5 + cfg.strategy_switch_min_improvement <;>
          simp [hc, hconf]
      · by_cases ht : now - t < cfg.strategy_switch_cooldown_minutes * 60
        · simp [hc, ht]
        · unfold RiskPolicyAgent.switchConfidencePart switchConfVerdict
          by_cases hconf : intent.confidence_score < 3/5 + cfg.strategy_switch_min_improvement <;>
            simp [hc, ht, hconf]

theorem check_symbol_validity_char (cfg : Settings) (intent : TradeIntent) (a : RiskApproval) :
    RiskPolicyAgent.check_symbol_validity cfg intent a =
      (!(symbolVerdict cfg intent).1,
       if (symbolVerdict cfg intent).1 then
         rejectUpd a (symbolVerdict cfg intent).2.1 (symbolVerdict cfg intent).2.2
       else a) := by
  unfold RiskPolicyAgent.check_symbol_validity symbolVerdict
  by_cases h : intent.symbol ∈ cfg.trading_symbols <;> simp [h]

theorem reasonChain_eq_lastFail (L : List (Bool × String × String)) :
    reasonChain L = ((L.filter (fun v => v.1)).getLast?).map (fun v => v.2.1) := by
  induction L using List.reverseRecOn with
  | nil => rfl
  | append_singleton L v ih =>
    by_cases hv : v.1
    · simp [reasonChain, List.foldl_append, List.filter_append, hv]
    · simp only [reasonChain, List.foldl_append, List.filter_append] at *
      simp [hv, ih]

/-- `budgetStateUpd` changes only the safe-mode flag. -/
theorem perTradeVerdict_budgetStateUpd (cfg : Settings) (intent : TradeIntent) (s : DailyState) :
    perTradeVerdict cfg intent (budgetStateUpd s) = perTradeVerdict cfg intent s := by
  unfold budgetStateUpd; split_ifs <;> rfl

theorem maxRiskPerTrade_budgetStateUpd (cfg : Settings) (s : DailyState) :
    maxRiskPerTrade cfg (budgetStateUpd s) = maxRiskPerTrade cfg s := by
  unfold budgetStateUpd; split_ifs <;> rfl

theorem maxTradesVerdict_budgetStateUpd (s : DailyState) :
    maxTradesVerdict (budgetStateUpd s) = maxTradesVerdict s := by
  unfold budgetStateUpd; split_ifs <;> rfl

theorem switchVerdict_budgetStateUpd (cfg : Settings) (now : Int) (intent : TradeIntent)
    (s : DailyState) :
    switchVerdict cfg now intent (budgetStateUpd s) = switchVerdict cfg now intent s := by
  unfold budgetStateUpd; split_ifs <;> rfl

theorem switchPassUpd_budgetStateUpd (intent : TradeIntent) (s : DailyState) (a : RiskApproval) :
    switchPassUpd intent (budgetStateUpd s) a = switchPassUpd intent s a := by
  unfold budgetStateUpd; split_ifs <;> rfl

theorem hitl_budgetStateUpd (cfg : Settings) (intent : TradeIntent) (s : DailyState)
    (a : RiskApproval) :
    RiskPolicyAgent.check_hitl_requirements cfg intent (budgetStateUpd s) a =
      RiskPolicyAgent.check_hitl_requirements cfg intent s a := by
  unfold budgetStateUpd; split_ifs <;> rfl

theorem adjust_budgetStateUpd (cfg : Settings) (intent : TradeIntent) (s : DailyState)
    (a : RiskApproval) :
    RiskPolicyAgent.adjust_quantity cfg intent (budgetStateUpd s) a =
      RiskPolicyAgent.adjust_quantity cfg intent s a := by
  unfold budgetStateUpd; split_ifs <;> rfl

theorem rejectUpd_approved (a : RiskApproval) (r k : String) :
    (rejectUpd a r k).approved = false := rfl

theorem rejectUpd_reason (a : RiskApproval) (r k : String) :
    (rejectUpd a r k).rejection_reason = some r := rfl

theorem switchPassUpd_approved (intent : TradeIntent) (s : DailyState) (a : RiskApproval) :
    (switchPassUpd intent s a).approved = a.approved := by
  unfold switchPassUpd
  rcases s.active_strategy with _ | cur
  · rfl
  · by_cases h : cur = intent.strategy_id <;> simp [h]

theorem switchPassUpd_reason (intent : TradeIntent) (s : DailyState) (a : RiskApproval) :
    (switchPassUpd intent s a).rejection_reason = a.rejection_reason := by
  unfold switchPassUpd
  rcases s.active_strategy with _ | cur
  · rfl
  · by_cases h : cur = intent.strategy_id <;> simp [h]

theorem hitl_approved (cfg : Settings) (intent : TradeIntent) (s : DailyState)
    (a : RiskApproval) :
    (RiskPolicyAgent.check_hitl_requirements cfg intent s a).approved = a.approved := by
  simp only [RiskPolicyAgent.check_hitl_requirements]
  split_ifs <;> rfl

theorem hitl_reason (cfg : Settings) (intent : TradeIntent) (s : DailyState)
    (a : RiskApproval) :
    (RiskPolicyAgent.check_hitl_requirements cfg intent s a).rejection_reason =
      a.rejection_reason := by
  simp only [RiskPolicyAgent.check_hitl_requirements]
  split_ifs <;> rfl

theorem adjust_isSome (cfg : Settings) (intent : TradeIntent) (s : DailyState)
    (a : RiskApproval) (sl : ℚ) (h : intent.stop_loss_price = some sl) :
    ∃ a', RiskPolicyAgent.adjust_quantity cfg intent s a = some a' ∧
      a'.approved = a.approved ∧ a'.rejection_reason = a.rejection_reason := by
  simp only [RiskPolicyAgent.adjust_quantity, h]
  split_ifs <;> exact ⟨_, rfl, rfl, rfl⟩

theorem stopVerdict_pass (intent : TradeIntent) (v : Bool × String × String)
    (hsv : stopVerdict intent = some v) (hv : v.1 = false) :
    ∃ sl e, intent.stop_loss_price = some sl ∧ intent.entry_price = some e ∧
      ((intent.side = .BUY ∧ sl < e) ∨ (intent.side = .SELL ∧ e < sl)) := by
  rcases hst : intent.stop_loss_price with _ | sl
  · simp only [stopVerdict, hst, Option.some.injEq] at hsv
    subst hsv; simp at hv
  · rcases hen : intent.entry_price with _ | e
    · simp [stopVerdict, hst, hen] at hsv
    · rcases hsd : intent.side with _ | _
      · by_cases hle : e ≤ sl
        · simp only [stopVerdict, hst, hen, hsd, if_pos hle, Option.some.injEq] at hsv
          subst hsv; simp at hv
        · exact ⟨sl, e, rfl, rfl, Or.inl ⟨rfl, lt_of_not_le hle⟩⟩
      · by_cases hle : sl ≤ e
        · simp only [stopVerdict, hst, hen, hsd, if_pos hle, Option.some.injEq] at hsv
          subst hsv; simp at hv
        · exact ⟨sl, e, rfl, rfl, Or.inr ⟨rfl, lt_of_not_le hle⟩⟩

theorem adjust_some_preserves (cfg : Settings) (intent : TradeIntent) (s : DailyState)
    (aX a' : RiskApproval) (h : RiskPolicyAgent.adjust_quantity cfg intent s aX = some a') :
    a'.approved = aX.approved ∧ a'.rejection_reason = aX.rejection_reason := by
  simp only [RiskPolicyAgent.adjust_quantity] at h
  rcases hst : intent.stop_loss_price with _ | sl <;> simp only [hst] at h
  · exact absurd h (by simp)
  · split_ifs at h <;> simp only [Option.some.injEq] at h <;> rw [← h] <;> exact ⟨rfl, rfl⟩

theorem failList_all_eq (cfg : Settings) (now : Int) (intent : TradeIntent) (s1 : DailyState)
    (v2 : Bool × String × String) (hsv : stopVerdict intent = some v2) :
    (failList cfg now intent s1).all (fun v => !v.1) =
      (!s1.safe_mode && !v2.1 && !(budgetVerdict intent s1).1 &&
        !(perTradeVerdict cfg intent s1).1 && !(maxTradesVerdict s1).1 &&
        !(switchVerdict cfg now intent s1).1 && !(symbolVerdict cfg intent).1 && true) := by
  simp [failList, hsv, List.all_cons, List.all_nil, Bool.and_assoc]

theorem approve_some_char (cfg : Settings) (now : Int) (book : Book) (intent : TradeIntent)
    (intent_id : Option Int) (s : DailyState) (a : RiskApproval) (s2 : DailyState)
    (h : RiskPolicyAgent.approve cfg now book intent intent_id s = some (a, s2)) :
    (∃ v, stopVerdict intent = some v) ∧
    s2 = budgetStateUpd (s.updatePnl none (some (sumUnrealized book))) ∧
    a.approved =
      (failList cfg now intent (s.updatePnl none (some (sumUnrealized book)))).all
        (fun v => !v.1) ∧
    a.rejection_reason =
      reasonChain (failList cfg now intent (s.updatePnl none (some (sumUnrealized book)))) := by
  rcases hsv : stopVerdict intent with _ | v2
  · exfalso
    simp only [RiskPolicyAgent.approve, check_stop_loss_char, hsv, Option.map_none'] at h
    exact Option.noConfusion h
  · simp only [RiskPolicyAgent.approve, check_safe_mode_char, check_stop_loss_char, hsv,
      Option.map_some', check_daily_loss_budget_char, check_per_trade_risk_char,
      check_max_trades_char, check_strategy_switch_char, check_symbol_validity_char,
      RiskPolicyAgent.check_liquidity, perTradeVerdict_budgetStateUpd,
      maxRiskPerTrade_budgetStateUpd, maxTradesVerdict_budgetStateUpd,
      switchVerdict_budgetStateUpd, switchPassUpd_budgetStateUpd, hitl_budgetStateUpd,
      adjust_budgetStateUpd] at h
    set s1 := s.updatePnl none (some (sumUnrealized book)) with hs1
    refine ⟨⟨v2, rfl⟩, ?_⟩
    by_cases hall : (!s1.safe_mode && !v2.1 && !(budgetVerdict intent s1).1 &&
        !(perTradeVerdict cfg intent s1).1 && !(maxTradesVerdict s1).1 &&
        !(switchVerdict cfg now intent s1).1 && !(symbolVerdict cfg intent).1 && true) = true
    · rw [if_pos hall] at h
      have hall2 := hall
      simp only [Bool.and_eq_true, Bool.not_eq_true'] at hall2
      obtain ⟨⟨⟨⟨⟨⟨⟨h1, h2⟩, h3⟩, h4⟩, h5⟩, h6⟩, h7⟩, -⟩ := hall2
      simp only [h1, h2, h3, h4, h5, h6, h7] at h
      simp only [Bool.false_eq_true, if_false] at h
      split at h
      · exact absurd h (by simp)
      · rename_i a10 heq
        rw [Option.some.injEq, Prod.mk.injEq] at h
        obtain ⟨ha, hs2⟩ := h
        subst ha
        obtain ⟨hap, har⟩ := adjust_some_preserves _ _ _ _ _ heq
        refine ⟨hs2.symm, ?_, ?_⟩
        · rw [hap, hitl_approved, switchPassUpd_approved]
          rw [failList_all_eq cfg now intent s1 v2 hsv, hall]
        · rw [har, hitl_reason, switchPassUpd_reason]
          simp [reasonChain, failList, List.foldl, hsv, h1, h2, h3, h4, h5, h6, h7]
    · rw [if_neg hall] at h
      rw [Option.some.injEq, Prod.mk.injEq] at h
      obtain ⟨ha, hs2⟩ := h
      subst ha
      refine ⟨hs2.symm, ?_, ?_⟩
      · rw [failList_all_eq cfg now intent s1 v2 hsv]
        simp only [RiskApproval.approved]
        exact (Bool.eq_false_iff.mpr hall).symm
      · simp only [reasonChain, failList, List.foldl, hsv, Option.getD_some]
        simp only [apply_ite RiskApproval.rejection_reason, rejectUpd_reason,
          switchPassUpd_reason]
        simp

theorem applyChecks_lookup_inv (L : List ((Bool × String × String) × (RiskApproval → RiskApproval)))
    (a : RiskApproval) (k : String)
    (ha : lookupFlag a.guardrail_flags k = some (.b true))
    (hpass : ∀ w ∈ L, ∀ x : RiskApproval,
      lookupFlag ((w.2) x).guardrail_flags k = lookupFlag x.guardrail_flags k) :
    lookupFlag (applyChecks a L).guardrail_flags k = some (.b true) := by
  induction L generalizing a with
  | nil => exact ha
  | cons w rest ih =>
    rw [applyChecks]
    apply ih
    · by_cases hb : w.1.1 = true
      · rw [if_pos hb]
        by_cases hk : w.1.2.2 = k
        · subst hk; simp [rejectUpd, lookupFlag_setFlag_self]
        · simp only [rejectUpd]
          rw [lookupFlag_setFlag_ne _ _ hk]
          exact ha
      · rw [if_neg hb, hpass w (List.mem_cons_self _ _), ha]
    · exact fun w' hw' => hpass w' (List.mem_cons_of_mem _ hw')

theorem applyChecks_lookup_mem (L : List ((Bool × String × String) × (RiskApproval → RiskApproval)))
    (a : RiskApproval) (vp : (Bool × String × String) × (RiskApproval → RiskApproval))
    (hmem : vp ∈ L) (hfail : vp.1.1 = true)
    (hpass : ∀ w ∈ L, ∀ x : RiskApproval,
      lookupFlag ((w.2) x).guardrail_flags vp.1.2.2 = lookupFlag x.guardrail_flags vp.1.2.2) :
    lookupFlag (applyChecks a L).guardrail_flags vp.1.2.2 = some (.b true) := by
  induction L generalizing a with
  | nil => cases hmem
  | cons w rest ih =>
    rw [applyChecks]
    rcases List.mem_cons.mp hmem with rfl | hmem'
    · apply applyChecks_lookup_inv
      · rw [if_pos hfail]; simp [rejectUpd, lookupFlag_setFlag_self]
      · exact fun w' hw' => hpass w' (List.mem_cons_of_mem _ hw')
    · exact ih _ hmem' (fun w' hw' => hpass w' (List.mem_cons_of_mem _ hw'))

theorem lookup_switchPassUpd (intent : TradeIntent) (s : DailyState) (a : RiskApproval)
    (k : String) (hk : "strategy_switch" ≠ k) :
    lookupFlag (switchPassUpd intent s a).guardrail_flags k = lookupFlag a.guardrail_flags k := by
  unfold switchPassUpd
  rcases s.active_strategy with _ | cur
  · rfl
  · by_cases h : cur = intent.strategy_id
    · simp [h]
    · simp only [h, if_neg]
      simp only [if_false]
      exact lookupFlag_setFlag_ne _ _ hk

theorem budgetVerdict_keys (intent : TradeIntent) (s : DailyState) :
    (budgetVerdict intent s).2.2 = "loss_budget_exhausted" ∨
    (budgetVerdict intent s).2.2 = "risk_exceeds_budget" ∨ (budgetVerdict intent s).2.2 = "" := by
  unfold budgetVerdict; split_ifs <;> simp

theorem stopVerdict_keys (intent : TradeIntent) (v : Bool × String × String)
    (hsv : stopVerdict intent = some v) :
    v.2.2 = "missing_stop_loss" ∨ v.2.2 = "invalid_stop_loss" ∨ v.2.2 = "" := by
  rcases hst : intent.stop_loss_price with _ | sl
  · simp only [stopVerdict, hst, Option.some.injEq] at hsv
    subst hsv; left; rfl
  · rcases hen : intent.entry_price with _ | e
    · simp [stopVerdict, hst, hen] at hsv
    · rcases hsd : intent.side with _ | _ <;>
        simp only [stopVerdict, hst, hen, hsd] at hsv <;>
        split_ifs at hsv <;> simp only [Option.some.injEq] at hsv <;> subst hsv <;> simp

theorem perTradeVerdict_keys (cfg : Settings) (intent : TradeIntent) (s : DailyState) :
    (perTradeVerdict cfg intent s).2.2 = "per_trade_risk_exceeded" ∨
    (perTradeVerdict cfg intent s).2.2 = "" := by
  unfold perTradeVerdict; split_ifs <;> simp

theorem maxTradesVerdict_keys (s : DailyState) :
    (maxTradesVerdict s).2.2 = "max_trades_reached" ∨ (maxTradesVerdict s).2.2 = "" := by
  unfold maxTradesVerdict; split_ifs <;> simp

theorem switchVerdict_keys (cfg : Settings) (now : Int) (intent : TradeIntent) (s : DailyState) :
    (switchVerdict cfg now intent s).2.2 = "strategy_switch_cooldown" ∨
    (switchVerdict cfg now intent s).2.2 = "strategy_switch_confidence_low" ∨
    (switchVerdict cfg now intent s).2.2 = "" := by
  unfold switchVerdict switchConfVerdict
  rcases s.active_strategy with _ | cur
  · simp
  · by_cases hc : cur = intent.strategy_id
    · simp [hc]
    · rcases s.strategy_switched_at with _ | t
      · by_cases hcf : intent.confidence_score < 3/5 + cfg.strategy_switch_min_improvement <;>
          simp [hc, hcf]
      · by_cases hcd : now - t < cfg.strategy_switch_cooldown_minutes * 60
        · simp [hc, hcd]
        · by_cases hcf : intent.confidence_score < 3/5 + cfg.strategy_switch_min_improvement <;>
            simp [hc, hcd, hcf]

theorem symbolVerdict_keys (cfg : Settings) (intent : TradeIntent) :
    (symbolVerdict cfg intent).2.2 = "invalid_symbol" ∨ (symbolVerdict cfg intent).2.2 = "" := by
  unfold symbolVerdict; split_ifs <;> simp

theorem checkList_pass_preserve (cfg : Settings) (now : Int) (intent : TradeIntent)
    (s1 : DailyState) (v2 : Bool × String × String) (k : String)
    (h1 : "max_risk_per_trade" ≠ k) (h2 : "strategy_switch" ≠ k) :
    ∀ w ∈ checkList cfg now intent s1 v2, ∀ x : RiskApproval,
      lookupFlag ((w.2) x).guardrail_flags k = lookupFlag x.guardrail_flags k := by
  intro w hw x
  simp only [checkList, List.mem_cons, List.not_mem_nil, or_false] at hw
  rcases hw with rfl|rfl|rfl|rfl|rfl|rfl|rfl
  · rfl
  · rfl
  · rfl
  · exact lookupFlag_setFlag_ne _ _ h1
  · rfl
  · exact lookup_switchPassUpd intent s1 x k h2
  · rfl

theorem approve_some_flags (cfg : Settings) (now : Int) (book : Book) (intent : TradeIntent)
    (intent_id : Option Int) (s : DailyState) (a : RiskApproval) (s2 : DailyState)
    (h : RiskPolicyAgent.approve cfg now book intent intent_id s = some (a, s2)) :
    ∀ v ∈ failList cfg now intent (s.updatePnl none (some (sumUnrealized book))),
      v.1 = true → lookupFlag a.guardrail_flags v.2.2 = some (FlagVal.b true) := by
  rcases hsv : stopVerdict intent with _ | v2
  · exfalso
    simp only [RiskPolicyAgent.approve, check_stop_loss_char, hsv, Option.map_none'] at h
    exact Option.noConfusion h
  · simp only [RiskPolicyAgent.approve, check_safe_mode_char, check_stop_loss_char, hsv,
      Option.map_some', check_daily_loss_budget_char, check_per_trade_risk_char,
      check_max_trades_char, check_strategy_switch_char, check_symbol_validity_char,
      RiskPolicyAgent.check_liquidity, perTradeVerdict_budgetStateUpd,
      maxRiskPerTrade_budgetStateUpd, maxTradesVerdict_budgetStateUpd,
      switchVerdict_budgetStateUpd, switchPassUpd_budgetStateUpd, hitl_budgetStateUpd,
      adjust_budgetStateUpd] at h
    set s1 := s.updatePnl none (some (sumUnrealized book)) with hs1
    intro v hv hfail
    by_cases hall : (!s1.safe_mode && !v2.1 && !(budgetVerdict intent s1).1 &&
        !(perTradeVerdict cfg intent s1).1 && !(maxTradesVerdict s1).1 &&
        !(switchVerdict cfg now intent s1).1 && !(symbolVerdict cfg intent).1 && true) = true
    · have hall2 := hall
      simp only [Bool.and_eq_true, Bool.not_eq_true'] at hall2
      obtain ⟨⟨⟨⟨⟨⟨⟨h1, h2⟩, h3⟩, h4⟩, h5⟩, h6⟩, h7⟩, -⟩ := hall2
      simp only [failList, hsv, Option.getD_some, List.mem_cons, List.not_mem_nil,
        or_false] at hv
      rcases hv with rfl|rfl|rfl|rfl|rfl|rfl|rfl|rfl <;> simp_all
    · rw [if_neg hall, Option.some.injEq, Prod.mk.injEq] at h
      obtain ⟨ha, -⟩ := h
      subst ha
      simp only [failList, hsv, Option.getD_some, List.mem_cons, List.not_mem_nil,
        or_false] at hv
      rcases hv with rfl|rfl|rfl|rfl|rfl|rfl|rfl|rfl
      · exact applyChecks_lookup_mem (checkList cfg now intent s1 v2)
          (initApproval intent_id s1) (((s1.safe_mode, safeModeMsg, "safe_mode"), id))
          (by simp [checkList]) hfail
          (checkList_pass_preserve cfg now intent s1 v2 "safe_mode" (by decide) (by decide))
      · exact applyChecks_lookup_mem (checkList cfg now intent s1 v)
          (initApproval intent_id s1) ((v, id)) (by simp [checkList]) hfail
          (checkList_pass_preserve cfg now intent s1 v v.2.2
            (by rcases stopVerdict_keys intent v hsv with hk|hk|hk <;> rw [hk] <;> decide)
            (by rcases stopVerdict_keys intent v hsv with hk|hk|hk <;> rw [hk] <;> decide))
      · exact applyChecks_lookup_mem (checkList cfg now intent s1 v2)
          (initApproval intent_id s1) ((budgetVerdict intent s1, id)) (by simp [checkList]) hfail
          (checkList_pass_preserve cfg now intent s1 v2 (budgetVerdict intent s1).2.2
            (by rcases budgetVerdict_keys intent s1 with hk|hk|hk <;> rw [hk] <;> decide)
            (by rcases budgetVerdict_keys intent s1 with hk|hk|hk <;> rw [hk] <;> decide))
      · exact applyChecks_lookup_mem (checkList cfg now intent s1 v2)
          (initApproval intent_id s1)
          ((perTradeVerdict cfg intent s1, fun x =>
            { x with guardrail_flags :=
                setFlag x.guardrail_flags "max_risk_per_trade" (.q (maxRiskPerTrade cfg s1)) }))
          (by simp [checkList]) hfail
          (checkList_pass_preserve cfg now intent s1 v2 (perTradeVerdict cfg intent s1).2.2
            (by rcases perTradeVerdict_keys cfg intent s1 with hk|hk <;> rw [hk] <;> decide)
            (by rcases perTradeVerdict_keys cfg intent s1 with hk|hk <;> rw [hk] <;> decide))
      · exact applyChecks_lookup_mem (checkList cfg now intent s1 v2)
          (initApproval intent_id s1) ((maxTradesVerdict s1, id)) (by simp [checkList]) hfail
          (checkList_pass_preserve cfg now intent s1 v2 (maxTradesVerdict s1).2.2
            (by rcases maxTradesVerdict_keys s1 with hk|hk <;> rw [hk] <;> decide)
            (by rcases maxTradesVerdict_keys s1 with hk|hk <;> rw [hk] <;> decide))
      · exact applyChecks_lookup_mem (checkList cfg now intent s1 v2)
          (initApproval intent_id s1)
          ((switchVerdict cfg now intent s1, switchPassUpd intent s1)) (by simp [checkList]) hfail
          (checkList_pass_preserve cfg now intent s1 v2 (switchVerdict cfg now intent s1).2.2
            (by rcases switchVerdict_keys cfg now intent s1 with hk|hk|hk <;> rw [hk] <;> decide)
            (by rcases switchVerdict_keys cfg now intent s1 with hk|hk|hk <;> rw [hk] <;> decide))
      · exact applyChecks_lookup_mem (checkList cfg now intent s1 v2)
          (initApproval intent_id s1) ((symbolVerdict cfg intent, id)) (by simp [checkList]) hfail
          (checkList_pass_preserve cfg now intent s1 v2 (symbolVerdict cfg intent).2.2
            (by rcases symbolVerdict_keys cfg intent with hk|hk <;> rw [hk] <;> decide)
            (by rcases symbolVerdict_keys cfg intent with hk|hk <;> rw [hk] <;> decide))
      · simp at hfail

/-- C1: for every trade intent, `approve()` never returns a decision with
`approved = true` when the intent's stop-loss price is missing, or when
the intent is a BUY whose stop-loss is not strictly below the entry
price, or a SELL whose stop-loss is not strictly above the entry
price. -/
theorem C1_approve_never_approves_invalid_stop (cfg : Settings) (now : Int) (book : Book)
    (intent : TradeIntent) (intent_id : Option Int) (s : DailyState)
    (h : approvedOf (RiskPolicyAgent.approve cfg now book intent intent_id s) = true) :
    ∃ sl e, intent.stop_loss_price = some sl ∧ intent.entry_price = some e ∧
      ((intent.side = .BUY ∧ sl < e) ∨ (intent.side = .SELL ∧ e < sl)) := by
  rcases hres : RiskPolicyAgent.approve cfg now book intent intent_id s with _ | p
  · rw [hres] at h
    simp [approvedOf] at h
  · obtain ⟨a, s2⟩ := p
    rw [hres] at h
    simp only [approvedOf] at h
    obtain ⟨⟨v2, hsv⟩, -, happ, -⟩ :=
      approve_some_char cfg now book intent intent_id s a s2 hres
    rw [h] at happ
    have h2 : v2.1 = false := by
      by_contra hb
      rw [Bool.not_eq_false] at hb
      rw [eq_comm, List.all_eq_true] at happ
      have hmem := happ ((stopVerdict intent).getD (false, "", ""))
        (by simp [failList])
      rw [hsv] at hmem
      simp [hb] at hmem
    exact stopVerdict_pass intent v2 hsv h2

/-- C1 witness: a concrete valid BUY intent is in fact approved, and the
theorem yields its stop/entry facts. -/
theorem C1_approve_never_approves_invalid_stop_witness :
    ∃ sl e, w1intent.stop_loss_price = some sl ∧ w1intent.entry_price = some e ∧
      ((w1intent.side = .BUY ∧ sl < e) ∨ (w1intent.side = .SELL ∧ e < sl)) :=
  C1_approve_never_approves_invalid_stop defaultSettings 0 [] w1intent none w1state (by with_unfolding_all rfl)

/-- C2: all eight guardrail checks are evaluated on every call of
`approve` in the fixed order (safe-mode, stop-loss, daily-loss-budget,
per-trade-risk, max-trades, strategy-switch, symbol-allow-list,
liquidity), even after an earlier check has failed: the decision is
approved exactly when no check fails, the rejection reason it carries is
the one written by the last failing check in that order (each failing
check overwrites it), and every failing check's flag remains recorded in
the flag map. -/
theorem C2_all_checks_run_last_reason_wins (cfg : Settings) (now : Int) (book : Book)
    (intent : TradeIntent) (intent_id : Option Int) (s : DailyState) (a : RiskApproval)
    (s2 : DailyState)
    (h : RiskPolicyAgent.approve cfg now book intent intent_id s = some (a, s2)) :
    a.approved =
      (failList cfg now intent (s.updatePnl none (some (sumUnrealized book)))).all
        (fun v => !v.1) ∧
    a.rejection_reason =
      (((failList cfg now intent (s.updatePnl none (some (sumUnrealized book)))).filter
          (fun v => v.1)).getLast?).map (fun v => v.2.1) ∧
    ∀ v ∈ failList cfg now intent (s.updatePnl none (some (sumUnrealized book))),
      v.1 = true → lookupFlag a.guardrail_flags v.2.2 = some (FlagVal.b true) := by
  obtain ⟨-, -, happ, hreason⟩ := approve_some_char cfg now book intent intent_id s a s2 h
  exact ⟨happ, by rw [hreason, reasonChain_eq_lastFail],
    approve_some_flags cfg now book intent intent_id s a s2 h⟩

/-- C2 witness: on the exhausted-budget input two checks fail (the
daily-budget check and the per-trade check); the decision is rejected,
its reason is the later (per-trade) one, and both flags are recorded. -/
theorem C2_all_checks_run_last_reason_wins_witness :
    ((failList defaultSettings 0 c3intent (c3state.updatePnl none (some (sumUnrealized [])))).filter
        (fun v => v.1)).length = 2 ∧
    ∃ a s2, RiskPolicyAgent.approve defaultSettings 0 [] c3intent none c3state = some (a, s2) ∧
      a.approved = false ∧
      a.rejection_reason =
        (((failList defaultSettings 0 c3intent
            (c3state.updatePnl none (some (sumUnrealized [])))).filter
              (fun v => v.1)).getLast?).map (fun v => v.2.1) ∧
      lookupFlag a.guardrail_flags "loss_budget_exhausted" = some (FlagVal.b true) ∧
      lookupFlag a.guardrail_flags "per_trade_risk_exceeded" = some (FlagVal.b true) := by
  refine ⟨by with_unfolding_all rfl, ?_⟩
  rcases hev : RiskPolicyAgent.approve defaultSettings 0 [] c3intent none c3state with _ | p
  · exact absurd hev (by with_unfolding_all exact fun hc => Option.noConfusion hc)
  · obtain ⟨a, s2⟩ := p
    obtain ⟨happ, hre, hfl⟩ :=
      C2_all_checks_run_last_reason_wins defaultSettings 0 [] c3intent none c3state a s2 hev
    refine ⟨a, s2, rfl, ?_, hre, ?_, ?_⟩
    · rw [happ]; with_unfolding_all rfl
    · have hb := hfl (budgetVerdict c3intent (c3state.updatePnl none (some (sumUnrealized []))))
        (by simp [failList]) (by with_unfolding_all rfl)
      rwa [show (budgetVerdict c3intent
          (c3state.updatePnl none (some (sumUnrealized [])))).2.2 = "loss_budget_exhausted"
        from by with_unfolding_all rfl] at hb
    · have hp := hfl (perTradeVerdict defaultSettings c3intent
          (c3state.updatePnl none (some (sumUnrealized []))))
        (by simp [failList]) (by with_unfolding_all rfl)
      rwa [show (perTradeVerdict defaultSettings c3intent
          (c3state.updatePnl none (some (sumUnrealized [])))).2.2 = "per_trade_risk_exceeded"
        from by with_unfolding_all rfl] at hp

/-- C3 (code bug): with the daily budget exhausted (and safe mode not
yet set), a valid-stop proposal is rejected and safe-mode is tripped and
persisted — but the rejection reason carried by the returned decision is
the per-trade-risk message, which the last failing check wrote over the
budget message, and it does not mention the budget.  The repository's
own test (`test_daily_loss_budget`) asserts that the reason mentions
"budget". -/
theorem C3_budget_exhausted_reason_overwritten :
    c3state.safe_mode = false ∧
    approvedOf (RiskPolicyAgent.approve defaultSettings 0 [] c3intent none c3state) = false ∧
    resultSafeMode (RiskPolicyAgent.approve defaultSettings 0 [] c3intent none c3state) =
      some true ∧
    resultFlag "loss_budget_exhausted"
      (RiskPolicyAgent.approve defaultSettings 0 [] c3intent none c3state) =
        some (FlagVal.b true) ∧
    reasonOf (RiskPolicyAgent.approve defaultSettings 0 [] c3intent none c3state) =
      some "Per-trade risk (₹50.00) exceeds limit (₹0.00)" ∧
    strContains "Per-trade risk (₹50.00) exceeds limit (₹0.00)" "budget" = false ∧
    strContains (budgetExhaustedMsg (c3state.updatePnl none (some (sumUnrealized []))))
      "budget" = true := by
  with_unfolding_all (refine ⟨rfl, rfl, rfl, rfl, rfl, rfl, rfl⟩)

theorem find?_set (tl : Book) (pos : Position) :
    (tl.map (fun p => if p.symbol = pos.symbol then pos else p)).find?
      (fun p => p.symbol = pos.symbol) =
      if (tl.find? (fun p => p.symbol = pos.symbol)).isSome then some pos else none := by
  induction tl with
  | nil => simp
  | cons hd tl ih =>
    by_cases hh : hd.symbol = pos.symbol
    · simp [List.find?_cons, hh]
    · simp [List.find?_cons, hh, ih]

theorem find?_append_none {α : Type} (l1 l2 : List α) (p : α → Bool)
    (h : l1.find? p = none) : (l1 ++ l2).find? p = l2.find? p := by
  induction l1 with
  | nil => rfl
  | cons hd tl ih =>
    cases hp : p hd
    · rw [List.find?_cons_of_neg _ (by simp [hp])] at h
      rw [List.cons_append, List.find?_cons_of_neg _ (by simp [hp])]
      exact ih h
    · rw [List.find?_cons_of_pos _ hp] at h
      cases h

theorem getPosition_savePosition_self (book : Book) (pos : Position) :
    getPosition (savePosition book pos) pos.symbol = some pos := by
  unfold getPosition savePosition
  by_cases hf : (book.find? (fun p => p.symbol = pos.symbol)).isSome
  · rw [if_pos hf]
    rw [find?_set book pos, if_pos hf]
  · rw [if_neg hf]
    rw [find?_append_none book [pos] _ (Option.not_isSome_iff_eq_none.mp hf)]
    simp [List.find?_cons]

theorem getPosition_deletePosition_self (book : Book) (sym : String) :
    getPosition (deletePosition book sym) sym = none := by
  unfold getPosition deletePosition
  induction book with
  | nil => rfl
  | cons hd tl ih =>
    by_cases hh : hd.symbol = sym
    · simp only [List.filter_cons, hh]
      simp only [decide_not]
      simpa using ih
    · simp only [List.filter_cons]
      have hd1 : (decide ¬(hd.symbol = sym)) = true := by simp [hh]
      rw [hd1]
      simp only [if_true, List.find?_cons]
      have hd2 : (decide (hd.symbol = sym)) = false := by simp [hh]
      rw [hd2]
      simp only [decide_not]
      simpa using ih

theorem getPosition_some_symbol (book : Book) (sym : String) (p : Position)
    (h : getPosition book sym = some p) : p.symbol = sym := by
  unfold getPosition at h
  have := List.find?_some h
  exact of_decide_eq_true this

theorem updatedPosition_symbol (now : Int) (o : PaperOrder) (i : TradeIntent) (book : Book) :
    (ExecutionPaperAgent.updatedPosition now o i book).symbol = o.symbol := by
  unfold ExecutionPaperAgent.updatedPosition
  rcases hg : getPosition book o.symbol with _ | p0
  · rfl
  · have hs := getPosition_some_symbol book o.symbol p0 hg
    rcases hside : o.side <;> simp [hside, hs] <;> split_ifs <;> simp [hs]

theorem update_position_def (now : Int) (o : PaperOrder) (i : TradeIntent) (book : Book) :
    ExecutionPaperAgent.update_position now o i book =
      if (ExecutionPaperAgent.updatedPosition now o i book).quantity = 0 then
        deletePosition book (ExecutionPaperAgent.updatedPosition now o i book).symbol
      else savePosition book (ExecutionPaperAgent.updatedPosition now o i book) := rfl

/-- C4 (code bug): `_update_daily_state` does increment the trade count
and record the intent's strategy after every fill, but it never stamps
the strategy-switch timestamp: the source compares the ledger's active
strategy with the intent's only after overwriting it, so the comparison
can never differ.  At the concrete input the ledger's previous strategy
(momentum breakout) differs from the fill's (mean reversion), yet the
timestamp stays unset. -/
theorem C4_switch_timestamp_never_stamped :
    (∀ (now : Int) (intent : TradeIntent) (s : DailyState),
      (ExecutionPaperAgent.update_daily_state now intent s).trades_count = s.trades_count + 1 ∧
      (ExecutionPaperAgent.update_daily_state now intent s).active_strategy =
        some intent.strategy_id ∧
      (ExecutionPaperAgent.update_daily_state now intent s).strategy_switched_at =
        s.strategy_switched_at) ∧
    (c4state.active_strategy = some .MOMENTUM_BREAKOUT ∧
      c4intent.strategy_id = .MEAN_REVERSION ∧
      (ExecutionPaperAgent.update_daily_state 1000 c4intent c4state).strategy_switched_at =
        none) := by
  constructor
  · intro now intent s
    simp [ExecutionPaperAgent.update_daily_state]
  · exact ⟨rfl, rfl, by with_unfolding_all rfl⟩

/-- C5: buying `q1@p1` then `q1@p2` into a flat book yields one position
of size `2·q1` whose average price is exactly `(q1·p1+q1·p2)/(2·q1)`;
and after any fill the updated symbol never stores a zero-quantity
position (a zero net quantity deletes it from the book). -/
theorem C5_position_averaging_and_zero_deletion :
    (∀ (sym : String) (q1 : Int) (p1 p2 : ℚ) (now1 now2 : Int) (i1 i2 : TradeIntent)
      (o1 o2 : PaperOrder) (book : Book),
      0 < q1 →
      getPosition book sym = none →
      o1.symbol = sym → o1.side = .BUY → o1.quantity = q1 → o1.fill_price = some p1 →
      o2.symbol = sym → o2.side = .BUY → o2.quantity = q1 → o2.fill_price = some p2 →
      ∃ pos, getPosition
          (ExecutionPaperAgent.update_position now2 o2 i2
            (ExecutionPaperAgent.update_position now1 o1 i1 book)) sym = some pos ∧
        pos.quantity = 2 * q1 ∧
        pos.avg_price = ((q1 : ℚ) * p1 + (q1 : ℚ) * p2) / (2 * (q1 : ℚ))) ∧
    (∀ (now : Int) (o : PaperOrder) (i : TradeIntent) (book : Book) (p : Position),
      getPosition (ExecutionPaperAgent.update_position now o i book) o.symbol = some p →
      p.quantity ≠ 0) := by
  constructor
  · intro sym q1 p1 p2 now1 now2 i1 i2 o1 o2 book hq hflat h1s h1side h1q h1p h2s h2side h2q h2p
    have e1 : ExecutionPaperAgent.updatedPosition now1 o1 i1 book =
        { symbol := sym, quantity := q1, avg_price := p1, current_price := p1,
          stop_loss_price := i1.stop_loss_price, target_price := i1.target_price,
          strategy := i1.strategy_id } := by
      unfold ExecutionPaperAgent.updatedPosition
      rw [h1s, hflat]
      simp [h1side, h1q, h1p]
    have e1' : ExecutionPaperAgent.update_position now1 o1 i1 book =
        savePosition book
          { symbol := sym, quantity := q1, avg_price := p1, current_price := p1,
            stop_loss_price := i1.stop_loss_price, target_price := i1.target_price,
            strategy := i1.strategy_id } := by
      unfold ExecutionPaperAgent.update_position
      rw [e1]
      rw [if_neg (by simp; omega)]
    have hget1 : getPosition (ExecutionPaperAgent.update_position now1 o1 i1 book) sym =
        some { symbol := sym, quantity := q1, avg_price := p1, current_price := p1,
               stop_loss_price := i1.stop_loss_price, target_price := i1.target_price,
               strategy := i1.strategy_id } := by
      rw [e1']
      exact getPosition_savePosition_self book _
    have e2 : ExecutionPaperAgent.updatedPosition now2 o2 i2
        (ExecutionPaperAgent.update_position now1 o1 i1 book) =
        { symbol := sym, quantity := q1 + q1,
          avg_price := (p1 * (q1 : ℚ) + p2 * (q1 : ℚ)) / ((q1 + q1 : Int) : ℚ),
          current_price := p1,
          stop_loss_price := i1.stop_loss_price, target_price := i1.target_price,
          strategy := i1.strategy_id, last_updated := some now2 } := by
      unfold ExecutionPaperAgent.updatedPosition
      rw [h2s, hget1]
      have hle : (0:Int) ≤ q1 := le_of_lt hq
      have hne : q1 + q1 ≠ 0 := by omega
      simp [h2side, h2q, h2p, hle, hne]
    have e2' : ExecutionPaperAgent.update_position now2 o2 i2
        (ExecutionPaperAgent.update_position now1 o1 i1 book) =
        savePosition (ExecutionPaperAgent.update_position now1 o1 i1 book)
          { symbol := sym, quantity := q1 + q1,
            avg_price := (p1 * (q1 : ℚ) + p2 * (q1 : ℚ)) / ((q1 + q1 : Int) : ℚ),
            current_price := p1,
            stop_loss_price := i1.stop_loss_price, target_price := i1.target_price,
            strategy := i1.strategy_id, last_updated := some now2 } := by
      rw [update_position_def now2 o2 i2, e2]
      rw [if_neg (by simp; omega)]
    refine Exists.intro
      { symbol := sym, quantity := q1 + q1,
        avg_price := (p1 * (q1 : ℚ) + p2 * (q1 : ℚ)) / ((q1 + q1 : Int) : ℚ),
        current_price := p1,
        stop_loss_price := i1.stop_loss_price, target_price := i1.target_price,
        strategy := i1.strategy_id, last_updated := some now2 }
      ⟨?_, ?_, ?_⟩
    · rw [e2']
      exact getPosition_savePosition_self _ _
    · show q1 + q1 = 2 * q1
      ring
    · show (p1 * (q1 : ℚ) + p2 * (q1 : ℚ)) / ((q1 + q1 : Int) : ℚ) =
        ((q1 : ℚ) * p1 + (q1 : ℚ) * p2) / (2 * (q1 : ℚ))
      push_cast
      ring_nf
  · intro now o i book p h
    unfold ExecutionPaperAgent.update_position at h
    by_cases hz : (ExecutionPaperAgent.updatedPosition now o i book).quantity = 0
    · rw [if_pos hz, updatedPosition_symbol] at h
      rw [getPosition_deletePosition_self] at h
      cases h
    · rw [if_neg hz] at h
      have hs := getPosition_savePosition_self book (ExecutionPaperAgent.updatedPosition now o i book)
      rw [updatedPosition_symbol] at hs
      rw [hs, Option.some.injEq] at h
      rw [← h]
      exact hz

/-- Witness: two BUY fills of 5 at 100 and 110 into a flat book leave one
position of 10 at average (5·100+5·110)/10 = 105. -/
theorem C5_position_averaging_and_zero_deletion_witness :
    ∃ pos, getPosition
        (ExecutionPaperAgent.update_position 2 c5o2 c5intent
          (ExecutionPaperAgent.update_position 1 c5o1 c5intent [])) "MCX" = some pos ∧
      pos.quantity = 2 * 5 ∧
      pos.avg_price = ((5 : ℚ) * 100 + (5 : ℚ) * 110) / (2 * (5 : ℚ)) :=
  C5_position_averaging_and_zero_deletion.1 "MCX" 5 100 110 1 2 c5intent c5intent c5o1 c5o2 []
    (by decide) (by with_unfolding_all rfl) (by with_unfolding_all rfl)
    (by with_unfolding_all rfl) (by with_unfolding_all rfl) (by with_unfolding_all rfl)
    (by with_unfolding_all rfl) (by with_unfolding_all rfl) (by with_unfolding_all rfl)
    (by with_unfolding_all rfl)

/-- C6 counterexample: at the concrete scenario (long 10 @ avg 100, stop 98,
reference price 97) the realized PnL folded into the ledger is NOT
(97 − 100)·10 − 2·fee = −70: the simulated exit first applies sell-side
slippage to the reference price, so the fill is 97·(1 − 0.0005) = 96.9515
and the realized PnL is −70.485. -/
theorem C6_stop_exit_pnl_not_reference_price :
    (ExecutionPaperAgent.monitor_positions defaultSettings c6ltp [c6pos] c6state).2.2.realized_pnl ≠
      ((97 : ℚ) - 100) * 10 - 2 * defaultSettings.paper_brokerage_per_order := by
  with_unfolding_all decide

/-- C6 (amended): monitoring the long 10 @ 100 with stop 98 at reference
price 97 exits the full 10 units at the slippage-adjusted fill
97·(1 − slippage/100); the realized PnL folded into the ledger is exactly
(fill − 100)·10 − 2·fee, and the position is removed from the book. -/
theorem C6_stop_exit_full_quantity_with_slippage :
    (ExecutionPaperAgent.monitor_positions defaultSettings c6ltp [c6pos] c6state).1 =
      [{ symbol := "MCX", reason := "stop_loss", quantity := 10,
         exit_price := calculate_slippage 97 .SELL defaultSettings.paper_slippage_percent,
         realized_pnl :=
           (calculate_slippage 97 .SELL defaultSettings.paper_slippage_percent - 100) * 10 -
             2 * defaultSettings.paper_brokerage_per_order }] ∧
    (ExecutionPaperAgent.monitor_positions defaultSettings c6ltp [c6pos] c6state).2.1 = [] ∧
    (ExecutionPaperAgent.monitor_positions defaultSettings c6ltp [c6pos] c6state).2.2.realized_pnl =
      (calculate_slippage 97 .SELL defaultSettings.paper_slippage_percent - 100) * 10 -
        2 * defaultSettings.paper_brokerage_per_order := by
  refine ⟨?_, ?_, ?_⟩ <;> with_unfolding_all rfl

/-- C7: `evaluate` scores all three registered strategies on the one
snapshot; the selected score attains the maximum confidence; it is one of
the three, and a later-registered strategy is selected only when its
confidence is strictly above every earlier one (so on exact ties the
first-registered wins); the result is no-trade exactly when the best
confidence is below the fixed threshold 3/5 = 0.6, and otherwise it is
the intent generated from the best score. -/
theorem C7_evaluate_strict_max_first_registered_threshold (snap : MarketSnapshot) :
    (∀ s ∈ [StrategyBrainAgent.evaluate_momentum_breakout snap,
            StrategyBrainAgent.evaluate_mean_reversion snap,
            StrategyBrainAgent.evaluate_volatility_expansion snap],
        s.confidence ≤ (StrategyBrainAgent.bestScore snap).confidence) ∧
    (StrategyBrainAgent.bestScore snap = StrategyBrainAgent.evaluate_momentum_breakout snap ∨
     StrategyBrainAgent.bestScore snap = StrategyBrainAgent.evaluate_mean_reversion snap ∨
     StrategyBrainAgent.bestScore snap = StrategyBrainAgent.evaluate_volatility_expansion snap) ∧
    (StrategyBrainAgent.bestScore snap = StrategyBrainAgent.evaluate_mean_reversion snap →
      (StrategyBrainAgent.evaluate_momentum_breakout snap).confidence <
        (StrategyBrainAgent.evaluate_mean_reversion snap).confidence ∨
      StrategyBrainAgent.evaluate_momentum_breakout snap =
        StrategyBrainAgent.evaluate_mean_reversion snap) ∧
    (StrategyBrainAgent.bestScore snap = StrategyBrainAgent.evaluate_volatility_expansion snap →
      ((StrategyBrainAgent.evaluate_momentum_breakout snap).confidence <
          (StrategyBrainAgent.evaluate_volatility_expansion snap).confidence ∧
        (StrategyBrainAgent.evaluate_mean_reversion snap).confidence <
          (StrategyBrainAgent.evaluate_volatility_expansion snap).confidence) ∨
      StrategyBrainAgent.evaluate_momentum_breakout snap =
        StrategyBrainAgent.evaluate_volatility_expansion snap ∨
      StrategyBrainAgent.evaluate_mean_reversion snap =
        StrategyBrainAgent.evaluate_volatility_expansion snap) ∧
    (StrategyBrainAgent.evaluate snap = none ↔
      (StrategyBrainAgent.bestScore snap).confidence < StrategyBrainAgent.min_confidence_threshold) ∧
    StrategyBrainAgent.min_confidence_threshold = 3/5 ∧
    (¬ (StrategyBrainAgent.bestScore snap).confidence < StrategyBrainAgent.min_confidence_threshold →
      StrategyBrainAgent.evaluate snap =
        some (StrategyBrainAgent.generate_trade_intent snap (StrategyBrainAgent.bestScore snap))) := by
  set m := StrategyBrainAgent.evaluate_momentum_breakout snap with hm
  set r := StrategyBrainAgent.evaluate_mean_reversion snap with hr
  set v := StrategyBrainAgent.evaluate_volatility_expansion snap with hv
  have hbest : StrategyBrainAgent.bestScore snap =
      if (if m.confidence < r.confidence then r else m).confidence < v.confidence then v
      else if m.confidence < r.confidence then r else m := rfl
  have hev : StrategyBrainAgent.evaluate snap =
      if (StrategyBrainAgent.bestScore snap).confidence <
          StrategyBrainAgent.min_confidence_threshold then none
      else some (StrategyBrainAgent.generate_trade_intent snap
        (StrategyBrainAgent.bestScore snap)) := rfl
  refine ⟨?_, ?_, ?_, ?_, ?_, rfl, ?_⟩
  case _ =>
    intro s hs
    simp only [List.mem_cons, List.not_mem_nil, or_false] at hs
    by_cases h1 : m.confidence < r.confidence
    · by_cases h2 : r.confidence < v.confidence
      · have hb : StrategyBrainAgent.bestScore snap = v := by
          rw [hbest, if_pos h1, if_pos h2]
        rw [hb]
        rcases hs with rfl | rfl | rfl
        · linarith
        · linarith
        · exact le_refl _
      · have hb : StrategyBrainAgent.bestScore snap = r := by
          rw [hbest, if_pos h1, if_neg h2]
        rw [hb]
        rcases hs with rfl | rfl | rfl
        · linarith
        · exact le_refl _
        · linarith [not_lt.mp h2]
    · by_cases h2 : m.confidence < v.confidence
      · have hb : StrategyBrainAgent.bestScore snap = v := by
          rw [hbest, if_neg h1, if_pos h2]
        rw [hb]
        rcases hs with rfl | rfl | rfl
        · linarith
        · linarith [not_lt.mp h1]
        · exact le_refl _
      · have hb : StrategyBrainAgent.bestScore snap = m := by
          rw [hbest, if_neg h1, if_neg h2]
        rw [hb]
        rcases hs with rfl | rfl | rfl
        · exact le_refl _
        · linarith [not_lt.mp h1]
        · linarith [not_lt.mp h2]
  case _ =>
    by_cases h1 : m.confidence < r.confidence
    · by_cases h2 : r.confidence < v.confidence
      · exact Or.inr (Or.inr (by rw [hbest, if_pos h1, if_pos h2]))
      · exact Or.inr (Or.inl (by rw [hbest, if_pos h1, if_neg h2]))
    · by_cases h2 : m.confidence < v.confidence
      · exact Or.inr (Or.inr (by rw [hbest, if_neg h1, if_pos h2]))
      · exact Or.inl (by rw [hbest, if_neg h1, if_neg h2])
  case _ =>
    intro h
    by_cases h1 : m.confidence < r.confidence
    · exact Or.inl h1
    · by_cases h2 : m.confidence < v.confidence
      · have hb : StrategyBrainAgent.bestScore snap = v := by
          rw [hbest, if_neg h1, if_pos h2]
        have hvr : v = r := hb.symm.trans h
        exact Or.inl (hvr ▸ h2)
      · have hb : StrategyBrainAgent.bestScore snap = m := by
          rw [hbest, if_neg h1, if_neg h2]
        exact Or.inr (hb.symm.trans h)
  case _ =>
    intro h
    by_cases h1 : m.confidence < r.confidence
    · by_cases h2 : r.confidence < v.confidence
      · exact Or.inl ⟨lt_trans h1 h2, h2⟩
      · have hb : StrategyBrainAgent.bestScore snap = r := by
          rw [hbest, if_pos h1, if_neg h2]
        exact Or.inr (Or.inr (hb.symm.trans h))
    · by_cases h2 : m.confidence < v.confidence
      · exact Or.inl ⟨h2, lt_of_le_of_lt (not_lt.mp h1) h2⟩
      · have hb : StrategyBrainAgent.bestScore snap = m := by
          rw [hbest, if_neg h1, if_neg h2]
        exact Or.inr (Or.inl (hb.symm.trans h))
  case _ =>
    rw [hev]
    by_cases ht : (StrategyBrainAgent.bestScore snap).confidence <
        StrategyBrainAgent.min_confidence_threshold
    · simp [ht]
    · simp [ht]
  case _ =>
    intro h
    rw [hev, if_neg h]

/-- Witness for C7: on the bland ranging snapshot the best confidence is
mean reversion at 2/5 < 3/5, so `evaluate` returns no trade. -/
theorem C7_evaluate_witness : StrategyBrainAgent.evaluate c7snap = none :=
  (C7_evaluate_strict_max_first_registered_threshold c7snap).2.2.2.2.1.mpr
    (by with_unfolding_all decide)

/-- C9 counterexample: outside trading hours the cycle returns before any
monitoring.  Concretely, with a long position whose stop is crossed
(stop 98, reference price 97) an out-of-hours tick leaves the book
untouched, although monitoring the same book would have exited the
position. -/
theorem C9_out_of_hours_tick_skips_monitoring :
    TradingScheduler.run_trading_cycle defaultSettings 0 false false (fun _ => none) c6ltp
      [] [c6pos] c6state = ([], [c6pos], c6state) ∧
    (ExecutionPaperAgent.monitor_positions defaultSettings c6ltp [c6pos] c6state).2.1 ≠
      [c6pos] := by
  refine ⟨rfl, ?_⟩
  with_unfolding_all decide

/-- C9 (amended): position monitoring runs first on every tick *within
trading hours* — before safe-mode flattening, the exit-only return and
new-proposal generation — but an out-of-hours tick returns immediately
and runs no monitoring at all. -/
theorem C9_monitoring_first_only_within_hours (cfg : Settings) (now : Int)
    (inTradingHours exitOnly : Bool) (snapshots : String → Option MarketSnapshot)
    (ltp : String → Option ℚ) (cache : DedupCache) (book : Book) (stored : DailyState) :
    (inTradingHours = false →
      TradingScheduler.run_trading_cycle cfg now inTradingHours exitOnly snapshots ltp
        cache book stored = (cache, book, stored)) ∧
    (inTradingHours = true → stored.safe_mode = true →
      TradingScheduler.run_trading_cycle cfg now inTradingHours exitOnly snapshots ltp
        cache book stored =
      (cache, ExecutionPaperAgent.flatten_all_positions cfg ltp "safe_mode"
        (ExecutionPaperAgent.monitor_positions cfg ltp book stored).2.1
        (ExecutionPaperAgent.monitor_positions cfg ltp book stored).2.2)) ∧
    (inTradingHours = true → stored.safe_mode = false → exitOnly = true →
      TradingScheduler.run_trading_cycle cfg now inTradingHours exitOnly snapshots ltp
        cache book stored =
      (cache, (ExecutionPaperAgent.monitor_positions cfg ltp book stored).2.1,
        (ExecutionPaperAgent.monitor_positions cfg ltp book stored).2.2)) ∧
    (inTradingHours = true → stored.safe_mode = false → exitOnly = false →
      TradingScheduler.run_trading_cycle cfg now inTradingHours exitOnly snapshots ltp
        cache book stored =
      ((cfg.trading_symbols.foldl (TradingScheduler.processSymbol cfg now snapshots ltp)
          (cache, (ExecutionPaperAgent.monitor_positions cfg ltp book stored).2.1,
           (ExecutionPaperAgent.monitor_positions cfg ltp book stored).2.2, stored)).1,
       (cfg.trading_symbols.foldl (TradingScheduler.processSymbol cfg now snapshots ltp)
          (cache, (ExecutionPaperAgent.monitor_positions cfg ltp book stored).2.1,
           (ExecutionPaperAgent.monitor_positions cfg ltp book stored).2.2, stored)).2.1,
       (cfg.trading_symbols.foldl (TradingScheduler.processSymbol cfg now snapshots ltp)
          (cache, (ExecutionPaperAgent.monitor_positions cfg ltp book stored).2.1,
           (ExecutionPaperAgent.monitor_positions cfg ltp book stored).2.2, stored)).2.2.1)) := by
  refine ⟨?_, ?_, ?_, ?_⟩
  · intro h
    rw [TradingScheduler.run_trading_cycle, if_pos h]
  · intro h hsafe
    rw [TradingScheduler.run_trading_cycle, h]
    simp only [Bool.true_eq_false, if_false, hsafe, if_true]
  · intro h hsafe hexit
    rw [TradingScheduler.run_trading_cycle, h, hexit]
    simp only [hsafe, Bool.true_eq_false, Bool.false_eq_true, if_false, if_true]
  · intro h hsafe hexit
    rw [TradingScheduler.run_trading_cycle, h, hexit]
    simp only [hsafe, Bool.true_eq_false, Bool.false_eq_true, if_false, if_true]

/-- Witness for C9 (amended): an in-hours exit-only tick with safe mode
off returns exactly the monitoring output. -/
theorem C9_monitoring_first_witness :
    TradingScheduler.run_trading_cycle defaultSettings 0 true true (fun _ => none) c6ltp
      [] [c6pos] c6state =
    ([], (ExecutionPaperAgent.monitor_positions defaultSettings c6ltp [c6pos] c6state).2.1,
      (ExecutionPaperAgent.monitor_positions defaultSettings c6ltp [c6pos] c6state).2.2) :=
  (C9_monitoring_first_only_within_hours defaultSettings 0 true true (fun _ => none) c6ltp
    [] [c6pos] c6state).2.2.1 rfl (by with_unfolding_all rfl) rfl

theorem lookupTime_filter_setTime (c : DedupCache) (key : String) (t : Int)
    (pred : String × Int → Bool) (hp : pred (key, t) = true) :
    lookupTime ((setTime c key t).filter pred) key = some t := by
  induction c with
  | nil => simp [setTime, List.filter, hp, lookupTime]
  | cons hd tl ih =>
    obtain ⟨k, u⟩ := hd
    by_cases hk : k = key
    · subst hk
      simp [setTime, List.filter, hp, lookupTime]
    · simp only [setTime, if_neg hk]
      rw [List.filter_cons]
      by_cases hu : pred (k, u)
      · simp [hu, lookupTime, hk, ih]
      · simp [hu, ih]

theorem is_duplicate_false_snd (now : Int) (intent : TradeIntent) (cache : DedupCache)
    (h : (ExecutionPaperAgent.is_duplicate now intent cache).1 = false) :
    (ExecutionPaperAgent.is_duplicate now intent cache).2 =
      (setTime cache (intentHash intent) now).filter
        (fun p => (now - p.2) % 86400 < 600) := by
  simp only [ExecutionPaperAgent.is_duplicate] at h ⊢
  rcases hl : lookupTime cache (intentHash intent) with _ | last
  · simp [hl]
  · simp only [hl] at h ⊢
    by_cases hw : (now - last) % 86400 < 300
    · simp [hw] at h
    · simp [hw]

/-- C10: the duplicate check records the intent hash *before* any fill is
attempted.  If an approved intent passes the duplicate check but the
reference-price fetch fails (no order is created), its hash is
nevertheless stored with the current time, and an identical intent
re-submitted with the same hash within the 5-minute window (elapsed
seconds mod 86400 below 300) is rejected as a duplicate: `execute`
returns no order and changes nothing. -/
theorem C10_dedup_cache_recorded_before_fill (cfg : Settings) (now1 now2 : Int)
    (intent : TradeIntent) (approval approval2 : RiskApproval) (cache : DedupCache)
    (book : Book) (s : DailyState) (book2 : Book) (s2 : DailyState)
    (ltp ltp2 : String → Option ℚ)
    (h1 : approval.approved = true)
    (h2 : (ExecutionPaperAgent.is_duplicate now1 intent cache).1 = false)
    (h3 : ltp intent.symbol = none)
    (h4 : (now2 - now1) % 86400 < 300)
    (h5 : approval2.approved = true) :
    ExecutionPaperAgent.execute cfg now1 ltp intent approval cache book s =
      (none, (ExecutionPaperAgent.is_duplicate now1 intent cache).2, book, s) ∧
    lookupTime (ExecutionPaperAgent.is_duplicate now1 intent cache).2 (intentHash intent) =
      some now1 ∧
    ExecutionPaperAgent.execute cfg now2 ltp2 intent approval2
      (ExecutionPaperAgent.is_duplicate now1 intent cache).2 book2 s2 =
      (none, (ExecutionPaperAgent.is_duplicate now1 intent cache).2, book2, s2) := by
  have hrec : lookupTime (ExecutionPaperAgent.is_duplicate now1 intent cache).2
      (intentHash intent) = some now1 := by
    rw [is_duplicate_false_snd now1 intent cache h2]
    apply lookupTime_filter_setTime
    simp
  rcases hx : ExecutionPaperAgent.is_duplicate now1 intent cache with ⟨dup, cache1⟩
  rw [hx] at h2 hrec
  simp only at h2 hrec
  subst h2
  refine ⟨?_, hrec, ?_⟩
  · rw [ExecutionPaperAgent.execute, h1]
    simp only [Bool.true_eq_false, if_false, hx, Bool.false_eq_true, h3]
  · have hdup2 : ExecutionPaperAgent.is_duplicate now2 intent cache1 = (true, cache1) := by
      simp [ExecutionPaperAgent.is_duplicate, hrec, h4]
    rw [ExecutionPaperAgent.execute, h5]
    simp only [Bool.true_eq_false, if_false, hdup2, if_true]

/-- Witness for C10: at time 0 the approved intent passes the duplicate
check but the price fetch fails; at time 60 the identical intent is
rejected as a duplicate though no order was ever filled. -/
theorem C10_dedup_cache_recorded_witness :
    ExecutionPaperAgent.execute defaultSettings 0 c10ltpFail c3intent c10approval [] [] c3state =
      (none, (ExecutionPaperAgent.is_duplicate 0 c3intent []).2, [], c3state) ∧
    lookupTime (ExecutionPaperAgent.is_duplicate 0 c3intent []).2 (intentHash c3intent) =
      some 0 ∧
    ExecutionPaperAgent.execute defaultSettings 60 c10ltpOk c3intent c10approval
      (ExecutionPaperAgent.is_duplicate 0 c3intent []).2 [] c3state =
      (none, (ExecutionPaperAgent.is_duplicate 0 c3intent []).2, [], c3state) :=
  C10_dedup_cache_recorded_before_fill defaultSettings 0 60 c3intent c10approval c10approval
    [] [] c3state [] c3state c10ltpFail c10ltpOk rfl (by with_unfolding_all rfl) rfl
    (by decide) rfl

theorem updatePnl_safe_mode (s : DailyState) (r u : Option ℚ) :
    (s.updatePnl r u).safe_mode = s.safe_mode := rfl

theorem update_daily_state_safe_mode (now : Int) (intent : TradeIntent) (s : DailyState) :
    (ExecutionPaperAgent.update_daily_state now intent s).safe_mode = s.safe_mode := by
  simp [ExecutionPaperAgent.update_daily_state]

theorem budgetStateUpd_safe_mode_mono (s : DailyState) (h : s.safe_mode = true) :
    (budgetStateUpd s).safe_mode = true := by
  unfold budgetStateUpd
  split_ifs with hc
  · rfl
  · exact h

theorem approve_safe_mode_mono (cfg : Settings) (now : Int) (book : Book)
    (intent : TradeIntent) (intent_id : Option Int) (s : DailyState) (a : RiskApproval)
    (s2 : DailyState)
    (h : RiskPolicyAgent.approve cfg now book intent intent_id s = some (a, s2))
    (hs : s.safe_mode = true) : s2.safe_mode = true := by
  obtain ⟨-, hs2, -, -⟩ := approve_some_char cfg now book intent intent_id s a s2 h
  rw [hs2]
  exact budgetStateUpd_safe_mode_mono _ (by rw [updatePnl_safe_mode]; exact hs)

theorem approve_approved_safe_mode (cfg : Settings) (now : Int) (book : Book)
    (intent : TradeIntent) (intent_id : Option Int) (s : DailyState) (a : RiskApproval)
    (s2 : DailyState)
    (h : RiskPolicyAgent.approve cfg now book intent intent_id s = some (a, s2))
    (ha : a.approved = true) : s.safe_mode = false := by
  obtain ⟨-, -, happ, -⟩ := approve_some_char cfg now book intent intent_id s a s2 h
  rw [ha] at happ
  have hmem := List.all_eq_true.mp happ.symm
    ((s.updatePnl none (some (sumUnrealized book))).safe_mode, safeModeMsg, "safe_mode")
    (by simp [failList])
  simp only [Bool.not_eq_true'] at hmem
  rw [← updatePnl_safe_mode s none (some (sumUnrealized book))]
  exact hmem

theorem exit_position_safe_mode (cfg : Settings) (p : Position) (xp : ℚ) (reason : String)
    (book : Book) (s : DailyState) :
    (ExecutionPaperAgent.exit_position cfg p xp reason book s).2.2.safe_mode = s.safe_mode := rfl

theorem foldl_keep {α β : Type} (f : β → α → β) (P : β → Prop)
    (l : List α) (b : β) (hstep : ∀ b a, P b → P (f b a)) (hb : P b) :
    P (l.foldl f b) := by
  induction l generalizing b with
  | nil => exact hb
  | cons hd tl ih => exact ih (f b hd) (hstep b hd hb)

theorem monitorStep_safe_mode (cfg : Settings) (ltp : String → Option ℚ)
    (acc : List ExitAction × Book × DailyState) (pos : Position) :
    (ExecutionPaperAgent.monitorStep cfg ltp acc pos).2.2.safe_mode = acc.2.2.safe_mode := by
  obtain ⟨actions, book, s⟩ := acc
  simp only [ExecutionPaperAgent.monitorStep]
  rcases h : ltp pos.symbol with _ | cp
  · rfl
  · simp only
    split_ifs <;> simp [ExecutionPaperAgent.exit_position, updatePnl_safe_mode]

theorem monitor_positions_safe_mode (cfg : Settings) (ltp : String → Option ℚ)
    (book : Book) (s : DailyState) :
    (ExecutionPaperAgent.monitor_positions cfg ltp book s).2.2.safe_mode = s.safe_mode := by
  unfold ExecutionPaperAgent.monitor_positions
  exact foldl_keep _ (fun acc => acc.2.2.safe_mode = s.safe_mode) book ([], book, s)
    (fun b a hb => (monitorStep_safe_mode cfg ltp b a).trans hb) rfl

theorem flatten_safe_mode (cfg : Settings) (ltp : String → Option ℚ) (reason : String)
    (book : Book) (s : DailyState) :
    (ExecutionPaperAgent.flatten_all_positions cfg ltp reason book s).2.safe_mode =
      s.safe_mode := by
  unfold ExecutionPaperAgent.flatten_all_positions
  refine foldl_keep _ (fun acc => acc.2.safe_mode = s.safe_mode) book (book, s) ?_ rfl
  intro b a hb
  rcases h : ltp a.symbol with _ | cp
  · simpa [h] using hb
  · by_cases hz : cp = 0
    · simpa [h, hz] using hb
    · simpa [h, hz, ExecutionPaperAgent.exit_position] using hb

theorem execute_safe_mode (cfg : Settings) (now : Int) (ltp : String → Option ℚ)
    (intent : TradeIntent) (approval : RiskApproval) (cache : DedupCache) (book : Book)
    (s : DailyState) :
    (ExecutionPaperAgent.execute cfg now ltp intent approval cache book s).2.2.2.safe_mode =
      s.safe_mode := by
  simp only [ExecutionPaperAgent.execute]
  split
  · rfl
  · split
    · rfl
    · split
      · rfl
      · split
        · rfl
        · split
          · exact update_daily_state_safe_mode now intent s
          · rfl

theorem processSymbol_latch (cfg : Settings) (now : Int)
    (snapshots : String → Option MarketSnapshot) (ltp : String → Option ℚ)
    (st : DedupCache × Book × DailyState × DailyState) (sym : String)
    (hloc : st.2.2.2.safe_mode = false) :
    (TradingScheduler.processSymbol cfg now snapshots ltp st sym).2.2.2.safe_mode = false ∧
    (st.2.2.1.safe_mode = true →
      (TradingScheduler.processSymbol cfg now snapshots ltp st sym).2.2.1.safe_mode = true) := by
  obtain ⟨cache, book, stored, localState⟩ := st
  simp only at hloc
  simp only [TradingScheduler.processSymbol]
  rcases hsnap : snapshots sym with _ | snapshot
  · exact ⟨hloc, fun h => h⟩
  · simp only
    rcases hev : StrategyBrainAgent.evaluate snapshot with _ | intent
    · exact ⟨hloc, fun h => h⟩
    · simp only
      rcases happ : RiskPolicyAgent.approve cfg now book intent none stored with _ | pair
      · exact ⟨hloc, fun h => by rw [updatePnl_safe_mode]; exact h⟩
      · obtain ⟨approval, stored2⟩ := pair
        simp only
        by_cases hap : approval.approved = false
        · simp only [hap, if_true]
          refine ⟨hloc, fun h => ?_⟩
          exact approve_safe_mode_mono cfg now book intent none stored approval stored2 happ h
        · have hap2 : approval.approved = true := by
            revert hap
            cases approval.approved <;> simp
          have hsm := approve_approved_safe_mode cfg now book intent none stored approval
            stored2 happ hap2
          simp only [hap, if_false]
          by_cases hh : approval.hitl_required
          · simp only [hh, if_true]
            refine ⟨hloc, fun h => ?_⟩
            rw [hsm] at h
            cases h
          · simp only [hh, if_false]
            refine ⟨hloc, fun h => ?_⟩
            rw [hsm] at h
            cases h

theorem symbols_foldl_latch (cfg : Settings) (now : Int)
    (snapshots : String → Option MarketSnapshot) (ltp : String → Option ℚ)
    (syms : List String) (st : DedupCache × Book × DailyState × DailyState)
    (hst : st.2.2.1.safe_mode = true) (hloc : st.2.2.2.safe_mode = false) :
    (syms.foldl (TradingScheduler.processSymbol cfg now snapshots ltp) st).2.2.1.safe_mode =
      true := by
  have := foldl_keep (TradingScheduler.processSymbol cfg now snapshots ltp)
    (fun x => x.2.2.1.safe_mode = true ∧ x.2.2.2.safe_mode = false) syms st
    (fun b a hb => ⟨(processSymbol_latch cfg now snapshots ltp b a hb.2).2 hb.1,
      (processSymbol_latch cfg now snapshots ltp b a hb.2).1⟩) ⟨hst, hloc⟩
  exact this.1

theorem run_cycle_latch (cfg : Settings) (now : Int) (inTradingHours exitOnly : Bool)
    (snapshots : String → Option MarketSnapshot) (ltp : String → Option ℚ)
    (cache : DedupCache) (book : Book) (stored : DailyState)
    (h : stored.safe_mode = true) :
    (TradingScheduler.run_trading_cycle cfg now inTradingHours exitOnly snapshots ltp
      cache book stored).2.2.safe_mode = true := by
  unfold TradingScheduler.run_trading_cycle
  by_cases hh : inTradingHours = false
  · rw [if_pos hh]
    exact h
  · rw [if_neg hh]
    simp only [h, if_true]
    rw [flatten_safe_mode, monitor_positions_safe_mode]
    exact h

/-- C8: the ledger's safe-mode flag is a one-way latch.  `approve` never
turns it off (it may only trip it on); the manual trigger sets it; the
PnL fold, the fill-side ledger update, position exits, monitoring,
flattening and `execute` all leave it unchanged; the scheduler's
per-symbol pipeline and a full cycle keep a set latch set; and only the
explicit daily reset starts a fresh ledger with safe mode off. -/
theorem C8_safe_mode_one_way_latch (cfg : Settings) (now : Int) (book : Book)
    (intent : TradeIntent) (intent_id : Option Int) (s s2 : DailyState) (a : RiskApproval)
    (r u : Option ℚ) (p : Position) (xp : ℚ) (reason : String) (ltp : String → Option ℚ)
    (approval : RiskApproval) (cache : DedupCache)
    (snapshots : String → Option MarketSnapshot) (syms : List String)
    (st : DedupCache × Book × DailyState × DailyState)
    (inTradingHours exitOnly : Bool) (today : String) :
    (RiskPolicyAgent.approve cfg now book intent intent_id s = some (a, s2) →
      s.safe_mode = true → s2.safe_mode = true) ∧
    (RiskPolicyAgent.trigger_safe_mode s).safe_mode = true ∧
    (s.updatePnl r u).safe_mode = s.safe_mode ∧
    (ExecutionPaperAgent.update_daily_state now intent s).safe_mode = s.safe_mode ∧
    (ExecutionPaperAgent.exit_position cfg p xp reason book s).2.2.safe_mode = s.safe_mode ∧
    (ExecutionPaperAgent.monitor_positions cfg ltp book s).2.2.safe_mode = s.safe_mode ∧
    (ExecutionPaperAgent.flatten_all_positions cfg ltp reason book s).2.safe_mode =
      s.safe_mode ∧
    (ExecutionPaperAgent.execute cfg now ltp intent approval cache book s).2.2.2.safe_mode =
      s.safe_mode ∧
    (st.2.2.1.safe_mode = true → st.2.2.2.safe_mode = false →
      (syms.foldl (TradingScheduler.processSymbol cfg now snapshots ltp)
        st).2.2.1.safe_mode = true) ∧
    (s.safe_mode = true →
      (TradingScheduler.run_trading_cycle cfg now inTradingHours exitOnly snapshots ltp
        cache book s).2.2.safe_mode = true) ∧
    (RiskPolicyAgent.reset_daily_state cfg today).safe_mode = false :=
  ⟨fun h hs => approve_safe_mode_mono cfg now book intent intent_id s a s2 h hs,
   rfl,
   updatePnl_safe_mode s r u,
   update_daily_state_safe_mode now intent s,
   exit_position_safe_mode cfg p xp reason book s,
   monitor_positions_safe_mode cfg ltp book s,
   flatten_safe_mode cfg ltp reason book s,
   execute_safe_mode cfg now ltp intent approval cache book s,
   fun hst hloc => symbols_foldl_latch cfg now snapshots ltp syms st hst hloc,
   fun hs => run_cycle_latch cfg now inTradingHours exitOnly snapshots ltp cache book s hs,
   rfl⟩

/-- Witness for C8: a full in-hours cycle started on a manually latched
ledger ends with safe mode still on. -/
theorem C8_safe_mode_latch_witness :
    (TradingScheduler.run_trading_cycle defaultSettings 0 true false (fun _ => none) c6ltp
      [] [c6pos] (RiskPolicyAgent.trigger_safe_mode c6state)).2.2.safe_mode = true :=
  (C8_safe_mode_one_way_latch defaultSettings 0 [c6pos] c3intent none
    (RiskPolicyAgent.trigger_safe_mode c6state) c6state c10approval none none c6pos 97 "x"
    c6ltp c10approval [] (fun _ => none) [] ([], [], c6state, c6state) true false
    "2026-01-06").2.2.2.2.2.2.2.2.2.1 rfl
